import Mathlib

/-!
Shallow embedding of the interview answer-scoring engine of the FIA-Project
repository, together with proofs checking the specification's claims.

Embedded sources:
* `backend/src/models/interview.types.ts` — question bank, scoring-rule data,
  duration expectations, low-confidence patterns, `getQuestionsForVisaType`.
* `backend/src/services/interview.service.ts` — `InterviewService` with
  `startInterview`, `submitAnswer`, `endInterview`, `scoreAnswer`,
  `checkDuration`, `checkConsistency`, `applyRule`, `generateFeedback`.
* `backend/src/services/gemini.service.ts` — `evaluateAnswer`,
  `callWithRetry`, `getFallbackEvaluation`.

Modelling conventions:
* JS strings are Lean `String`s; `String.prototype.includes` is substring
  containment on the character list; `toLowerCase`/`trim` are character-wise
  `toLowerStr`/`trimStr` (they agree with JS on the ASCII inputs the engine
  matches on and evaluate structurally inside proofs).
* JS numbers holding scores are `Int` while being accumulated (they may go
  negative before clamping) and `Nat` after clamping; `Math.round(s / n)` for
  nonnegative integer `s` is `(2*s + n) / (2*n)` in `Nat` arithmetic.
* The regexes appearing in the question bank's `pattern` scoring rules are
  embedded as explicit boolean test functions, one per regex, documented at
  their definitions.
* `Map` objects (`activeSessions`, `previousAnswers`) are association lists
  with overwrite-on-set semantics; `uuidv4()` and `Date.now()` are external
  oracles, so the operations take the fresh id / timestamp as an argument.
* `Math.random()`-driven shuffling in `getQuestionsForVisaType` is modelled
  by quantifying over an arbitrary permutation of the combined question list.
-/

namespace FIA

/-- JS `haystack.includes(needle)`: contiguous substring containment. -/
def includes (s sub : String) : Bool :=
  decide (List.IsInfix sub.data s.data)

/-- JS `s.toLowerCase()` (character-wise lower-casing; agrees with JS on the
ASCII keywords the engine matches). Defined structurally over the character
list so that concrete answers evaluate inside proofs. -/
def toLowerStr (s : String) : String :=
  ⟨s.data.map Char.toLower⟩

/-- JS `s.trim()`: strip leading and trailing whitespace. -/
def trimStr (s : String) : String :=
  ⟨((s.data.dropWhile Char.isWhitespace).reverse.dropWhile Char.isWhitespace).reverse⟩

/-- JS `answer.toLowerCase().trim()`, the normalisation applied by `scoreAnswer`. -/
def normalize (s : String) : String :=
  trimStr (toLowerStr s)

/-- Value of a list of decimal digit characters (JS `parseInt` on a digit run). -/
def digitsToNat (l : List Char) : Nat :=
  l.foldl (fun n c => n * 10 + (c.toNat - '0'.toNat)) 0

/-- First maximal run of digits in the string, parsed — JS
`answer.match(/\d+/g)` followed by `parseInt(numbers[0])`;
`none` when the string holds no digit. -/
def firstNumber (s : String) : Option Nat :=
  go s.data
where
  go : List Char → Option Nat
    | [] => none
    | c :: rest =>
      if c.isDigit then some (digitsToNat ((c :: rest).takeWhile Char.isDigit))
      else go rest

/-- JS `Math.round(s / n)` for a nonnegative integer `s` and positive `n`:
half-up rounding of the quotient. -/
def roundDiv (s n : Nat) : Nat :=
  (2 * s + n) / (2 * n)

/-- JS `Math.max(0, Math.min(100, x))`, landing in `Nat`. -/
def clamp (x : Int) : Nat :=
  (max 0 (min 100 x)).toNat

/-! ### Data model (`interview.types.ts`) -/

/-- `type InterviewVisaType = 'tourist' | 'visit' | 'family' | 'work' | 'student' | 'business'`. -/
inductive InterviewVisaType
  | tourist | visit | family | work | student | business
deriving DecidableEq, Repr

/-- `category: 'universal' | 'visa_specific'`. -/
inductive QuestionCategory
  | universal | visa_specific
deriving DecidableEq, Repr

/-- `visaTypes: InterviewVisaType[] | 'all'`. -/
inductive VisaTypesSpec
  | all
  | only (l : List InterviewVisaType)
deriving DecidableEq, Repr

/-- `expectedAnswerType` tag. -/
inductive ExpectedAnswerType
  | text | duration | yes_no | date | number | name | address
deriving DecidableEq, Repr

/-- Score categories a rule can affect. -/
inductive ScoreCategory
  | completeness | clarity | relevance | confidence | consistency
deriving DecidableEq, Repr

/-- The discriminated condition of a `ScoringRule` (`type` + `value` in the
source). A `pattern` rule carries the embedded test of its regex (the regexes
are all applied with the `'i'` flag to the already lower-cased answer).
`duration_check` (and the unused `consistency` rule type) fall into
`applyRule`'s `default` branch, which never applies. -/
inductive RuleCond
  | contains (value : String)
  | not_contains (value : String)
  | min_length (value : Nat)
  | max_length (value : Nat)
  | pattern (test : String → Bool)
  | duration_check

/-- `ScoringRule`: condition, signed point delta, affected category. -/
structure ScoringRule where
  cond : RuleCond
  score : Int
  category : ScoreCategory

/-- `InterviewQuestion`. `followUpQuestions` is omitted: no code reads it. -/
structure InterviewQuestion where
  id : String
  text : String
  textUrdu : String
  category : QuestionCategory
  visaTypes : VisaTypesSpec
  expectedAnswerType : ExpectedAnswerType
  scoringRules : List ScoringRule
  redFlags : Option (List String) := none
  greenFlags : Option (List String) := none

/-- The five clamped dimensions plus the derived total of a score breakdown. -/
structure ScoreBreakdown where
  completeness : Nat
  clarity : Nat
  relevance : Nat
  confidence : Nat
  consistency : Nat
  total : Nat
deriving DecidableEq, Repr

/-- `QuestionAnswer` record appended to a session. -/
structure QuestionAnswer where
  questionId : String
  questionText : String
  userAnswer : String
  responseTimeMs : Nat
  scores : ScoreBreakdown
  flagged : Bool
  flagReason : Option String
  feedback : String
deriving DecidableEq, Repr

/-- `InterviewSession`. Timestamps are abstract `Nat` instants supplied by the
caller (the source uses `new Date().toISOString()`). -/
structure InterviewSession where
  id : String
  visaType : InterviewVisaType
  destinationCountry : String
  startTime : Nat
  endTime : Option Nat
  totalQuestions : Nat
  questionsAsked : List QuestionAnswer
  overallScore : Nat
  passed : Bool
  feedback : String
  improvements : List String
deriving Repr

/-! ### Regex tests used by `pattern` scoring rules

Each is the embedding of one regex literal from the question bank, applied
(as in `applyRule`) case-insensitively to the lower-cased answer. -/

/-- `'^[A-Za-z\s]+$'` (u1): nonempty and every character a letter or whitespace. -/
def nameLettersTest (s : String) : Bool :=
  !s.data.isEmpty && s.data.all (fun c => c.isAlpha || c.isWhitespace)

/-- `'(yes|no|first time|been before|visited)'` (u7): unanchored alternation. -/
def firstTimeTest (s : String) : Bool :=
  includes s "yes" || includes s "no" || includes s "first time" ||
    includes s "been before" || includes s "visited"

/-- `'\d+'` (t3, w3): some digit occurs. -/
def digitsTest (s : String) : Bool :=
  s.data.any Char.isDigit

/-- `'(brother|sister|father|mother|husband|wife|son|daughter|uncle|aunt|cousin|friend)'` (f2). -/
def relationshipTest (s : String) : Bool :=
  includes s "brother" || includes s "sister" || includes s "father" ||
    includes s "mother" || includes s "husband" || includes s "wife" ||
    includes s "son" || includes s "daughter" || includes s "uncle" ||
    includes s "aunt" || includes s "cousin" || includes s "friend"

/-- `'(yes|no)'` (f5). -/
def yesNoTest (s : String) : Bool :=
  includes s "yes" || includes s "no"

/-- `'(1|2|3|one|two|three)\s*(year|years)'` (w4): one of the number tokens,
optional whitespace, then `year` (which also covers `years`). -/
def contractYearsTest (s : String) : Bool :=
  go s.data
where
  go : List Char → Bool
    | [] => false
    | c :: rest =>
      (["1", "2", "3", "one", "two", "three"].any fun t =>
        t.data.isPrefixOf (c :: rest) &&
          "year".data.isPrefixOf (((c :: rest).drop t.data.length).dropWhile Char.isWhitespace))
      || go rest

/-- `'(yes|no|first time|worked|never)'` (w6). -/
def workedAbroadTest (s : String) : Bool :=
  includes s "yes" || includes s "no" || includes s "first time" ||
    includes s "worked" || includes s "never"

/-! ### The question bank (`INTERVIEW_QUESTIONS`) -/

def u1Q : InterviewQuestion :=
  { id := "u1"
    text := "What is your full name as written in your passport?"
    textUrdu := "آپ کا پورا نام جو پاسپورٹ میں لکھا ہے؟"
    category := .universal
    visaTypes := .all
    expectedAnswerType := .name
    scoringRules := [⟨.min_length 3, 20, .completeness⟩, ⟨.pattern nameLettersTest, 20, .clarity⟩]
    greenFlags := some ["muhammad", "khan", "ahmed", "ali"] }

def u2Q : InterviewQuestion :=
  { id := "u2"
    text := "What is your nationality?"
    textUrdu := "آپ کی قومیت کیا ہے؟"
    category := .universal
    visaTypes := .all
    expectedAnswerType := .text
    scoringRules := [⟨.contains "pakistan", 30, .relevance⟩]
    greenFlags := some ["pakistani", "pakistan"]
    redFlags := some ["dont know", "not sure"] }

def u3Q : InterviewQuestion :=
  { id := "u3"
    text := "Which country are you traveling to?"
    textUrdu := "آپ کس ملک جا رہے ہیں؟"
    category := .universal
    visaTypes := .all
    expectedAnswerType := .text
    scoringRules := [⟨.min_length 3, 20, .completeness⟩]
    greenFlags := some ["saudi", "uae", "dubai", "qatar", "uk", "usa", "canada", "malaysia"] }

def u4Q : InterviewQuestion :=
  { id := "u4"
    text := "What is the purpose of your visit?"
    textUrdu := "آپ کے سفر کا مقصد کیا ہے؟"
    category := .universal
    visaTypes := .all
    expectedAnswerType := .text
    scoringRules := [⟨.min_length 5, 15, .completeness⟩]
    greenFlags := some ["work", "job", "employment", "visit family", "tourism", "holiday",
      "study", "business meeting"]
    redFlags := some ["not sure", "dont know", "maybe"] }

def u5Q : InterviewQuestion :=
  { id := "u5"
    text := "How long do you plan to stay?"
    textUrdu := "آپ کتنے دن رہنے کا ارادہ رکھتے ہیں؟"
    category := .universal
    visaTypes := .all
    expectedAnswerType := .duration
    scoringRules := [⟨.duration_check, 30, .relevance⟩]
    redFlags := some ["forever", "permanent", "dont know", "as long as possible"] }

def u6Q : InterviewQuestion :=
  { id := "u6"
    text := "Where will you be staying during your visit?"
    textUrdu := "آپ اپنے قیام کے دوران کہاں رہیں گے؟"
    category := .universal
    visaTypes := .all
    expectedAnswerType := .address
    scoringRules := [⟨.min_length 10, 20, .completeness⟩]
    greenFlags := some ["hotel", "with family", "with brother", "with sister",
      "company accommodation", "hostel", "apartment"]
    redFlags := some ["dont know", "not sure", "will find"] }

def u7Q : InterviewQuestion :=
  { id := "u7"
    text := "Is this your first time visiting this country?"
    textUrdu := "کیا آپ پہلی بار اس ملک جا رہے ہیں؟"
    category := .universal
    visaTypes := .all
    expectedAnswerType := .yes_no
    scoringRules := [⟨.pattern firstTimeTest, 25, .clarity⟩] }

def u8Q : InterviewQuestion :=
  { id := "u8"
    text := "What is your current occupation?"
    textUrdu := "آپ کا موجودہ پیشہ کیا ہے؟"
    category := .universal
    visaTypes := .all
    expectedAnswerType := .text
    scoringRules := [⟨.min_length 3, 20, .completeness⟩]
    greenFlags := some ["engineer", "doctor", "teacher", "driver", "technician",
      "businessman", "student", "accountant"]
    redFlags := some ["unemployed", "nothing", "no job"] }

def u9Q : InterviewQuestion :=
  { id := "u9"
    text := "Do you have a return ticket?"
    textUrdu := "کیا آپ کے پاس واپسی کا ٹکٹ ہے؟"
    category := .universal
    visaTypes := .all
    expectedAnswerType := .yes_no
    scoringRules := [⟨.contains "yes", 30, .relevance⟩, ⟨.contains "no", -20, .relevance⟩]
    redFlags := some ["no", "not yet", "will buy later"]
    greenFlags := some ["yes", "booked", "confirmed"] }

def u10Q : InterviewQuestion :=
  { id := "u10"
    text := "Who is sponsoring your trip?"
    textUrdu := "آپ کے سفر کا خرچہ کون اٹھا رہا ہے؟"
    category := .universal
    visaTypes := .all
    expectedAnswerType := .text
    scoringRules := [⟨.min_length 5, 20, .completeness⟩]
    greenFlags := some ["myself", "company", "employer", "brother", "father", "family",
      "scholarship"] }

def t1Q : InterviewQuestion :=
  { id := "t1"
    text := "Which cities or places do you plan to visit?"
    textUrdu := "آپ کون سے شہر یا جگہیں دیکھنا چاہتے ہیں؟"
    category := .visa_specific
    visaTypes := .only [.tourist]
    expectedAnswerType := .text
    scoringRules := [⟨.min_length 5, 20, .completeness⟩]
    greenFlags := some ["makkah", "madinah", "dubai", "abu dhabi", "london", "paris"]
    redFlags := some ["dont know", "anywhere"] }

def t2Q : InterviewQuestion :=
  { id := "t2"
    text := "Do you have hotel reservations?"
    textUrdu := "کیا آپ نے ہوٹل بک کروایا ہے؟"
    category := .visa_specific
    visaTypes := .only [.tourist]
    expectedAnswerType := .yes_no
    scoringRules := [⟨.contains "yes", 25, .relevance⟩, ⟨.contains "booked", 25, .relevance⟩]
    greenFlags := some ["yes", "booked", "confirmed", "reservation"]
    redFlags := some ["no", "will book", "not yet"] }

def t3Q : InterviewQuestion :=
  { id := "t3"
    text := "How much money are you carrying for this trip?"
    textUrdu := "آپ اس سفر کے لیے کتنی رقم لے کر جا رہے ہیں؟"
    category := .visa_specific
    visaTypes := .only [.tourist]
    expectedAnswerType := .number
    scoringRules := [⟨.pattern digitsTest, 20, .completeness⟩]
    redFlags := some ["nothing", "no money", "dont have"] }

def t4Q : InterviewQuestion :=
  { id := "t4"
    text := "Do you have travel insurance?"
    textUrdu := "کیا آپ کے پاس ٹریول انشورنس ہے؟"
    category := .visa_specific
    visaTypes := .only [.tourist]
    expectedAnswerType := .yes_no
    scoringRules := [⟨.contains "yes", 20, .relevance⟩]
    greenFlags := some ["yes", "have insurance"] }

def f1Q : InterviewQuestion :=
  { id := "f1"
    text := "Who are you visiting? What is their name?"
    textUrdu := "آپ کس سے ملنے جا رہے ہیں؟ ان کا نام؟"
    category := .visa_specific
    visaTypes := .only [.family, .visit]
    expectedAnswerType := .name
    scoringRules := [⟨.min_length 3, 25, .completeness⟩]
    greenFlags := some ["brother", "sister", "father", "mother", "husband", "wife", "son",
      "daughter", "uncle", "aunt"] }

def f2Q : InterviewQuestion :=
  { id := "f2"
    text := "What is your relationship with the sponsor?"
    textUrdu := "سپانسر سے آپ کا کیا رشتہ ہے؟"
    category := .visa_specific
    visaTypes := .only [.family, .visit]
    expectedAnswerType := .text
    scoringRules := [⟨.pattern relationshipTest, 30, .relevance⟩]
    greenFlags := some ["brother", "sister", "father", "mother", "husband", "wife", "son",
      "daughter"]
    redFlags := some ["stranger", "dont know", "agent"] }

def f3Q : InterviewQuestion :=
  { id := "f3"
    text := "What is your sponsor's occupation?"
    textUrdu := "آپ کے سپانسر کا پیشہ کیا ہے؟"
    category := .visa_specific
    visaTypes := .only [.family, .visit]
    expectedAnswerType := .text
    scoringRules := [⟨.min_length 3, 20, .completeness⟩]
    greenFlags := some ["engineer", "doctor", "teacher", "driver", "technician",
      "businessman", "manager"]
    redFlags := some ["dont know", "not sure"] }

def f4Q : InterviewQuestion :=
  { id := "f4"
    text := "What is your sponsor's address?"
    textUrdu := "آپ کے سپانسر کا پتہ کیا ہے؟"
    category := .visa_specific
    visaTypes := .only [.family, .visit]
    expectedAnswerType := .address
    scoringRules := [⟨.min_length 15, 25, .completeness⟩]
    redFlags := some ["dont know", "not sure", "will tell"] }

def f5Q : InterviewQuestion :=
  { id := "f5"
    text := "Will you be staying at your sponsor's residence?"
    textUrdu := "کیا آپ اپنے سپانسر کے گھر رہیں گے؟"
    category := .visa_specific
    visaTypes := .only [.family, .visit]
    expectedAnswerType := .yes_no
    scoringRules := [⟨.pattern yesNoTest, 20, .clarity⟩] }

def w1Q : InterviewQuestion :=
  { id := "w1"
    text := "What company will you be working for?"
    textUrdu := "آپ کس کمپنی میں کام کریں گے؟"
    category := .visa_specific
    visaTypes := .only [.work]
    expectedAnswerType := .text
    scoringRules := [⟨.min_length 3, 25, .completeness⟩]
    redFlags := some ["dont know", "not sure", "any company"] }

def w2Q : InterviewQuestion :=
  { id := "w2"
    text := "What is your job title/position?"
    textUrdu := "آپ کی ملازمت کا عہدہ کیا ہے؟"
    category := .visa_specific
    visaTypes := .only [.work]
    expectedAnswerType := .text
    scoringRules := [⟨.min_length 3, 25, .completeness⟩]
    greenFlags := some ["driver", "engineer", "technician", "welder", "electrician",
      "plumber", "chef", "manager", "accountant"]
    redFlags := some ["dont know", "any job"] }

def w3Q : InterviewQuestion :=
  { id := "w3"
    text := "What will be your monthly salary?"
    textUrdu := "آپ کی ماہانہ تنخواہ کتنی ہوگی؟"
    category := .visa_specific
    visaTypes := .only [.work]
    expectedAnswerType := .number
    scoringRules := [⟨.pattern digitsTest, 20, .completeness⟩]
    redFlags := some ["dont know", "not sure"] }

def w4Q : InterviewQuestion :=
  { id := "w4"
    text := "How long is your employment contract?"
    textUrdu := "آپ کا ملازمت کا معاہدہ کتنے عرصے کا ہے؟"
    category := .visa_specific
    visaTypes := .only [.work]
    expectedAnswerType := .duration
    scoringRules := [⟨.pattern contractYearsTest, 25, .relevance⟩]
    greenFlags := some ["1 year", "2 years", "3 years", "one year", "two years"] }

def w5Q : InterviewQuestion :=
  { id := "w5"
    text := "Where will you live during your employment?"
    textUrdu := "ملازمت کے دوران آپ کہاں رہیں گے؟"
    category := .visa_specific
    visaTypes := .only [.work]
    expectedAnswerType := .address
    scoringRules := [⟨.min_length 5, 20, .completeness⟩]
    greenFlags := some ["company accommodation", "company provided", "labor camp", "sharing"]
    redFlags := some ["dont know", "not sure"] }

def w6Q : InterviewQuestion :=
  { id := "w6"
    text := "Do you have any previous work experience abroad?"
    textUrdu := "کیا آپ نے پہلے بیرون ملک کام کیا ہے؟"
    category := .visa_specific
    visaTypes := .only [.work]
    expectedAnswerType := .yes_no
    scoringRules := [⟨.pattern workedAbroadTest, 20, .clarity⟩] }

def s1Q : InterviewQuestion :=
  { id := "s1"
    text := "Which university/college will you be attending?"
    textUrdu := "آپ کون سی یونیورسٹی/کالج میں پڑھیں گے؟"
    category := .visa_specific
    visaTypes := .only [.student]
    expectedAnswerType := .text
    scoringRules := [⟨.min_length 5, 25, .completeness⟩]
    redFlags := some ["dont know", "not sure", "any university"] }

def s2Q : InterviewQuestion :=
  { id := "s2"
    text := "What course or program will you study?"
    textUrdu := "آپ کون سا کورس یا پروگرام پڑھیں گے؟"
    category := .visa_specific
    visaTypes := .only [.student]
    expectedAnswerType := .text
    scoringRules := [⟨.min_length 5, 25, .completeness⟩]
    greenFlags := some ["engineering", "medicine", "computer", "business", "mba", "masters",
      "bachelor", "phd"]
    redFlags := some ["dont know", "not sure"] }

def s3Q : InterviewQuestion :=
  { id := "s3"
    text := "How will you pay for your education?"
    textUrdu := "آپ اپنی تعلیم کا خرچہ کیسے ادا کریں گے؟"
    category := .visa_specific
    visaTypes := .only [.student]
    expectedAnswerType := .text
    scoringRules := [⟨.min_length 5, 20, .completeness⟩]
    greenFlags := some ["scholarship", "parents", "father", "family", "savings",
      "education loan"]
    redFlags := some ["dont know", "not sure"] }

def s4Q : InterviewQuestion :=
  { id := "s4"
    text := "What are your plans after completing your studies?"
    textUrdu := "پڑھائی مکمل کرنے کے بعد آپ کا کیا ارادہ ہے؟"
    category := .visa_specific
    visaTypes := .only [.student]
    expectedAnswerType := .text
    scoringRules := [⟨.contains "return", 30, .relevance⟩, ⟨.contains "pakistan", 20, .relevance⟩]
    greenFlags := some ["return to pakistan", "come back", "serve my country", "return home"]
    redFlags := some ["stay", "settle", "permanent", "never come back"] }

def b1Q : InterviewQuestion :=
  { id := "b1"
    text := "What is the purpose of your business trip?"
    textUrdu := "آپ کے کاروباری سفر کا مقصد کیا ہے؟"
    category := .visa_specific
    visaTypes := .only [.business]
    expectedAnswerType := .text
    scoringRules := [⟨.min_length 10, 20, .completeness⟩]
    greenFlags := some ["meeting", "conference", "exhibition", "trade", "negotiation",
      "contract", "partnership"]
    redFlags := some ["dont know", "not sure"] }

def b2Q : InterviewQuestion :=
  { id := "b2"
    text := "Which company or organization invited you?"
    textUrdu := "کس کمپنی یا تنظیم نے آپ کو دعوت دی؟"
    category := .visa_specific
    visaTypes := .only [.business]
    expectedAnswerType := .text
    scoringRules := [⟨.min_length 5, 25, .completeness⟩]
    redFlags := some ["no one", "myself", "dont know"] }

def b3Q : InterviewQuestion :=
  { id := "b3"
    text := "What is your company name and your position?"
    textUrdu := "آپ کی کمپنی کا نام اور آپ کا عہدہ کیا ہے؟"
    category := .visa_specific
    visaTypes := .only [.business]
    expectedAnswerType := .text
    scoringRules := [⟨.min_length 10, 25, .completeness⟩]
    greenFlags := some ["owner", "director", "manager", "ceo", "partner"] }

def b4Q : InterviewQuestion :=
  { id := "b4"
    text := "Who is paying for this business trip?"
    textUrdu := "اس کاروباری سفر کا خرچہ کون اٹھا رہا ہے؟"
    category := .visa_specific
    visaTypes := .only [.business]
    expectedAnswerType := .text
    scoringRules := [⟨.min_length 3, 20, .completeness⟩]
    greenFlags := some ["company", "myself", "my company", "inviting company", "host company"] }

/-- The full static question bank, in source order. -/
def INTERVIEW_QUESTIONS : List InterviewQuestion :=
  [u1Q, u2Q, u3Q, u4Q, u5Q, u6Q, u7Q, u8Q, u9Q, u10Q,
   t1Q, t2Q, t3Q, t4Q,
   f1Q, f2Q, f3Q, f4Q, f5Q,
   w1Q, w2Q, w3Q, w4Q, w5Q, w6Q,
   s1Q, s2Q, s3Q, s4Q,
   b1Q, b2Q, b3Q, b4Q]

/-- Units of the per-visa-type duration expectation table. -/
inductive DurationUnit
  | days | months | years
deriving DecidableEq, Repr

/-- One row of `DURATION_EXPECTATIONS`. -/
structure DurationExpectation where
  min : Nat
  max : Nat
  unit : DurationUnit
deriving DecidableEq, Repr

/-- `DURATION_EXPECTATIONS` table. -/
def DURATION_EXPECTATIONS : InterviewVisaType → DurationExpectation
  | .tourist => ⟨5, 30, .days⟩
  | .visit => ⟨7, 90, .days⟩
  | .family => ⟨1, 12, .months⟩
  | .work => ⟨1, 3, .years⟩
  | .student => ⟨1, 5, .years⟩
  | .business => ⟨3, 30, .days⟩

/-- `LOW_CONFIDENCE_PATTERNS`: filler words indicating low confidence. -/
def LOW_CONFIDENCE_PATTERNS : List String :=
  ["um", "uh", "maybe", "i think", "i guess", "not sure", "dont know",
   "don't know", "possibly", "perhaps", "might", "could be", "i suppose"]

/-! ### Question selection (`getQuestionsForVisaType`) -/

/-- Whether a `visaTypes` field is the literal `'all'`. -/
def VisaTypesSpec.isAll : VisaTypesSpec → Bool
  | .all => true
  | .only _ => false

/-- JS `q.visaTypes.includes(visaType)` on the array form (`'all'` has no
`includes`; the source only calls it after excluding `'all'`). -/
def VisaTypesSpec.memb : VisaTypesSpec → InterviewVisaType → Bool
  | .all, _ => false
  | .only l, vt => l.contains vt

/-- The universal questions applicable to a visa type. -/
def universalQuestionsFor (vt : InterviewVisaType) : List InterviewQuestion :=
  INTERVIEW_QUESTIONS.filter fun q =>
    decide (q.category = .universal) && (q.visaTypes.isAll || q.visaTypes.memb vt)

/-- The visa-specific questions applicable to a visa type. -/
def visaSpecificQuestionsFor (vt : InterviewVisaType) : List InterviewQuestion :=
  INTERVIEW_QUESTIONS.filter fun q =>
    decide (q.category = .visa_specific) && !q.visaTypes.isAll && q.visaTypes.memb vt

/-- `[...universalQuestions.slice(0, 6), ...visaSpecificQuestions.slice(0, 4)]`. -/
def combinedFor (vt : InterviewVisaType) : List InterviewQuestion :=
  (universalQuestionsFor vt).take 6 ++ (visaSpecificQuestionsFor vt).take 4

/-- `getQuestionsForVisaType`, with the `Math.random()` shuffle made explicit:
`shuffled` is the outcome of `combined.sort(() => Math.random() - 0.5)`, an
arbitrary permutation of `combinedFor vt` (see `ShuffleOutcome`); the function
then truncates to `count`. -/
def getQuestionsForVisaType (_vt : InterviewVisaType) (count : Nat)
    (shuffled : List InterviewQuestion) : List InterviewQuestion :=
  shuffled.take count

/-- Valid outcomes of the randomized `sort`: any permutation of the combined
selection. -/
def ShuffleOutcome (vt : InterviewVisaType) (shuffled : List InterviewQuestion) : Prop :=
  shuffled.Perm (combinedFor vt)

/-! ### The rule-based scorer (`InterviewService.scoreAnswer` and helpers)

The source accumulates the five dimensions in a mutable object through nine
numbered steps, then clamps and totals.  Each numbered step is one function
on a `ScoringState`; `scoreAnswer` is their composition followed by
`finalizeScores`. -/

/-- The five dimensions while being accumulated (pre-clamp, may be negative). -/
structure RawScores where
  completeness : Int
  clarity : Int
  relevance : Int
  confidence : Int
  consistency : Int
deriving DecidableEq, Repr

/-- Projection of a `RawScores` by category (`scores[rule.category]`). -/
def RawScores.get (s : RawScores) : ScoreCategory → Int
  | .completeness => s.completeness
  | .clarity => s.clarity
  | .relevance => s.relevance
  | .confidence => s.confidence
  | .consistency => s.consistency

/-- `scores[c] += d`. -/
def RawScores.add (s : RawScores) (c : ScoreCategory) (d : Int) : RawScores :=
  match c with
  | .completeness => { s with completeness := s.completeness + d }
  | .clarity => { s with clarity := s.clarity + d }
  | .relevance => { s with relevance := s.relevance + d }
  | .confidence => { s with confidence := s.confidence + d }
  | .consistency => { s with consistency := s.consistency + d }

/-- The mutable locals of `scoreAnswer`: the raw scores, the `flagged` flag,
the latest `flagReason`, and the accumulated `feedbackParts`. -/
structure ScoringState where
  scores : RawScores
  flagged : Bool
  flagReason : Option String
  feedbackParts : List String

/-- Initial state: all dimensions at the neutral midpoint 50. -/
def initialScoringState : ScoringState :=
  { scores := ⟨50, 50, 50, 50, 50⟩, flagged := false, flagReason := none, feedbackParts := [] }

/-- Step 1 — trivial-answer guard: `if (answerLower.length < 2)`. -/
def step1Short (a : String) (st : ScoringState) : ScoringState :=
  if a.length < 2 then
    { st with
      scores := { st.scores with completeness := 0, clarity := 0 }
      flagged := true
      flagReason := some "Answer too short or empty"
      feedbackParts := st.feedbackParts ++ ["Please provide a complete answer."] }
  else st

/-- Step 2 — green flags: each match boosts relevance by 15, plus a single
+10 completeness when any matched. -/
def step2Green (q : InterviewQuestion) (a : String) (st : ScoringState) : ScoringState :=
  match q.greenFlags with
  | none => st
  | some flags =>
    let matched := flags.filter fun f => includes a (toLowerStr f)
    if 0 < matched.length then
      { st with scores := { st.scores with
          relevance := st.scores.relevance + 15 * matched.length
          completeness := st.scores.completeness + 10 } }
    else st

/-- Step 3 — red flags: each match penalizes relevance by 20; any match flags
the answer with a reason naming the matches. -/
def step3Red (q : InterviewQuestion) (a : String) (st : ScoringState) : ScoringState :=
  match q.redFlags with
  | none => st
  | some flags =>
    let matched := flags.filter fun f => includes a (toLowerStr f)
    if 0 < matched.length then
      { st with
        scores := { st.scores with relevance := st.scores.relevance - 20 * matched.length }
        flagged := true
        flagReason := some ("Concerning response detected: " ++ String.intercalate ", " matched)
        feedbackParts := st.feedbackParts ++
          ["This answer may raise concerns with immigration officers."] }
    else st

/-- Step 4 — low-confidence language: each matched filler phrase costs 15
confidence. -/
def step4Confidence (a : String) (st : ScoringState) : ScoringState :=
  let issues := LOW_CONFIDENCE_PATTERNS.filter fun p => includes a p
  if 0 < issues.length then
    { st with
      scores := { st.scores with confidence := st.scores.confidence - 15 * issues.length }
      feedbackParts := st.feedbackParts ++
        ["Try to sound more confident. Avoid words like \"maybe\" or \"I think\"."] }
  else st

/-- Result record of `checkDuration`. -/
structure DurationCheck where
  adjustment : Int
  feedback : Option String
  flagged : Bool
  flagReason : Option String

/-- `actualDays` computed by `checkDuration`: years count 365 days, months 30
(the `isDays` local in the source is dead — week/day answers keep the raw
number). -/
def durationDays (a : String) (duration : Nat) : Nat :=
  if includes a "year" then duration * 365
  else if includes a "month" then duration * 30
  else duration

/-- `InterviewService.checkDuration`. -/
def checkDuration (a : String) (visaType : InterviewVisaType) : DurationCheck :=
  let expectations := DURATION_EXPECTATIONS visaType
  match firstNumber a with
  | none =>
    { adjustment := -10, feedback := some "Please specify the duration clearly."
      flagged := false, flagReason := none }
  | some duration =>
    if includes a "forever" || includes a "permanent" || includes a "settle" then
      { adjustment := -40
        feedback := some "Indicating permanent stay is a red flag for most visa types."
        flagged := true
        flagReason := some "Indicated permanent stay intention" }
    else
      let actualDays := durationDays a duration
      let minDays := expectations.min *
        (match expectations.unit with | .years => 365 | .months => 30 | .days => 1)
      let maxDays := expectations.max *
        (match expectations.unit with | .years => 365 | .months => 30 | .days => 1)
      if visaType = .tourist ∧ 90 < actualDays then
        { adjustment := -30
          feedback := some
            "Tourist visa stays are typically short (few weeks). Long stays may raise concerns."
          flagged := true
          flagReason := some "Duration too long for tourist visa" }
      else if minDays ≤ actualDays ∧ 2 * actualDays ≤ 3 * maxDays then
        -- `actualDays <= maxDays * 1.5` for integer `actualDays`
        { adjustment := 20, feedback := some "Duration is appropriate."
          flagged := false, flagReason := none }
      else
        { adjustment := 0, feedback := none, flagged := false, flagReason := none }

/-- Step 5 — duration-specific checks for `expectedAnswerType === 'duration'`. -/
def step5Duration (q : InterviewQuestion) (a : String) (visaType : InterviewVisaType)
    (st : ScoringState) : ScoringState :=
  if q.expectedAnswerType = .duration then
    let d := checkDuration a visaType
    let st := { st with scores := { st.scores with relevance := st.scores.relevance + d.adjustment } }
    let st := match d.feedback with
      | some fb => { st with feedbackParts := st.feedbackParts ++ [fb] }
      | none => st
    if d.flagged then { st with flagged := true, flagReason := d.flagReason } else st
  else st

/-- Step 6 — yes/no clarity check for `expectedAnswerType === 'yes_no'`. -/
def step6YesNo (q : InterviewQuestion) (a : String) (st : ScoringState) : ScoringState :=
  if q.expectedAnswerType = .yes_no then
    if includes a "yes" || includes a "no" then
      { st with scores := { st.scores with clarity := st.scores.clarity + 20 } }
    else
      { st with
        scores := { st.scores with clarity := st.scores.clarity - 10 }
        feedbackParts := st.feedbackParts ++ ["Please answer clearly with yes or no."] }
  else st

/-- Step 7 — return-ticket hard rule for question `u9` under tourist/visit
visas; note it assigns `relevance` outright. -/
def step7ReturnTicket (q : InterviewQuestion) (a : String) (visaType : InterviewVisaType)
    (st : ScoringState) : ScoringState :=
  if q.id = "u9" ∧ (visaType = .tourist ∨ visaType = .visit) then
    if includes a "no" || includes a "not yet" || includes a "don't have" then
      { st with
        scores := { st.scores with relevance := 10 }
        flagged := true
        flagReason := some "No return ticket - major concern for tourist/visit visa"
        feedbackParts := st.feedbackParts ++
          ["Having a return ticket is essential for tourist and visit visas."] }
    else if includes a "yes" || includes a "booked" then
      { st with scores := { st.scores with relevance := 100 } }
    else st
  else st

/-- `InterviewService.checkConsistency`: the one live cross-check compares a
prior purpose answer (`u4`) with the current duration answer (`u5`); the
destination block in the source is empty. -/
def checkConsistency (q : InterviewQuestion) (a : String)
    (previousAnswers : List (String × String)) : Int × Option String :=
  match previousAnswers.lookup "u4" with
  | some purposeAnswer =>
    if q.id = "u5" ∧ includes purposeAnswer "tourist" ∧ includes a "year" then
      (-20, some "Your stated duration seems inconsistent with tourist purpose.")
    else (0, none)
  | none => (0, none)

/-- Step 8 — merge the consistency adjustment. -/
def step8Consistency (q : InterviewQuestion) (a : String)
    (previousAnswers : List (String × String)) (st : ScoringState) : ScoringState :=
  let c := checkConsistency q a previousAnswers
  let st := { st with scores := { st.scores with consistency := st.scores.consistency + c.1 } }
  match c.2 with
  | some fb => { st with feedbackParts := st.feedbackParts ++ [fb] }
  | none => st

/-- `InterviewService.applyRule`: whether the rule's condition holds on the
lower-cased answer (`duration_check`-style rules hit the `default` branch and
never apply). -/
def applyRule (r : ScoringRule) (a : String) : Bool :=
  match r.cond with
  | .contains v => includes a (toLowerStr v)
  | .not_contains v => !includes a (toLowerStr v)
  | .min_length n => decide (n ≤ a.length)
  | .max_length n => decide (a.length ≤ n)
  | .pattern test => test a
  | .duration_check => false

/-- Step 9 — apply the question's scoring rules in order; only the raw scores
change. -/
def step9Rules (q : InterviewQuestion) (a : String) (st : ScoringState) : ScoringState :=
  let newScores := q.scoringRules.foldl
    (fun sc r => if applyRule r a then sc.add r.category r.score else sc) st.scores
  { st with scores := newScores }

/-- Result of `scoreAnswer`. -/
structure ScoreResult where
  scores : ScoreBreakdown
  feedback : String
  flagged : Bool
  flagReason : Option String
deriving DecidableEq, Repr

/-- Clamp all five dimensions to `[0, 100]`, total them as the rounded mean
of exactly the five clamped values, and assemble the feedback text. -/
def finalizeScores (st : ScoringState) : ScoreResult :=
  let completeness := clamp st.scores.completeness
  let clarity := clamp st.scores.clarity
  let relevance := clamp st.scores.relevance
  let confidence := clamp st.scores.confidence
  let consistency := clamp st.scores.consistency
  let total := roundDiv (completeness + clarity + relevance + confidence + consistency) 5
  { scores := ⟨completeness, clarity, relevance, confidence, consistency, total⟩
    feedback :=
      if st.feedbackParts ≠ [] then String.intercalate " " st.feedbackParts
      else if 80 ≤ total then "Good answer!"
      else if 60 ≤ total then "Acceptable answer, but could be improved."
      else "This answer needs improvement."
    flagged := st.flagged
    flagReason := st.flagReason }

/-- Steps 1–9 of `scoreAnswer` composed, on the already-normalized answer. -/
def scorePipeline (q : InterviewQuestion) (a : String) (visaType : InterviewVisaType)
    (previousAnswers : List (String × String)) : ScoringState :=
  step9Rules q a <|
    step8Consistency q a previousAnswers <|
    step7ReturnTicket q a visaType <|
    step6YesNo q a <|
    step5Duration q a visaType <|
    step4Confidence a <|
    step3Red q a <|
    step2Green q a <|
    step1Short a initialScoringState

/-- `InterviewService.scoreAnswer`: normalize, run steps 1–9, finalize. -/
def scoreAnswer (q : InterviewQuestion) (answer : String) (visaType : InterviewVisaType)
    (previousAnswers : List (String × String)) : ScoreResult :=
  finalizeScores (scorePipeline q (normalize answer) visaType previousAnswers)

/-! ### The AI-assisted evaluator (`gemini.service.ts`)

The external model is an oracle `gen : String → Nat → Except GenError String`
(prompt, attempt number ↦ response or thrown error); structured-response
parsing and prompt construction are opaque parameters of `evaluateAnswer`
because no claim depends on their internals, only on when they are reached. -/

/-- An error thrown by the model call; `is429` marks rate-limit-class errors
(the source tests the message for `429`/`quota`/`Too Many Requests`). -/
structure GenError where
  is429 : Bool
deriving DecidableEq, Repr

/-- The structured result of evaluating one answer. -/
structure AnswerEvaluation where
  score : Nat
  completeness : Nat
  clarity : Nat
  relevance : Nat
  confidence : Nat
  consistency : Nat
  isValid : Bool
  feedback : String
  feedbackUrdu : String
  flags : List String
  suggestions : List String
  factCheckVerified : Bool
  factCheckIssues : List String
  spellingErrors : List String
  consistencyIssues : List String
deriving DecidableEq, Repr

/-- The service state relevant to control flow: whether a model object exists
and whether the SDK handle exists (the `rateLimited` flag only gates logging
and flag resets in the source, never the call path). -/
structure GeminiState where
  hasModel : Bool
  hasGenAI : Bool
  modelName : String
deriving DecidableEq, Repr

/-- `GeminiService.isAvailable`. -/
def GeminiState.isAvailable (st : GeminiState) : Bool :=
  st.hasModel || (st.hasGenAI && st.modelName != "")

/-- `GeminiService.getFallbackEvaluation`: the deterministic length-band
fallback. -/
def getFallbackEvaluation (answer : String) : AnswerEvaluation :=
  let length := (trimStr answer).length
  let score : Nat := if 50 < length then 70 else if 20 < length then 50 else 30
  { score := score
    completeness := score
    clarity := score
    relevance := score
    confidence := score
    consistency := score
    isValid := decide (5 < length)
    feedback :=
      if 20 < length then "[No AI] Answer recorded. AI evaluation unavailable."
      else "[No AI] Please provide more detail."
    feedbackUrdu :=
      if 20 < length then "[AI دستیاب نہیں] جواب ریکارڈ کیا گیا۔"
      else "[AI دستیاب نہیں] براہ کرم مزید تفصیل دیں۔"
    flags := if length < 10 then ["Answer too brief"] else []
    suggestions := if length < 20 then ["Provide more specific details"] else []
    factCheckVerified := true
    factCheckIssues := []
    spellingErrors := []
    consistencyIssues := [] }

/-- The retry loop of `callWithRetry`: at `attempt`, with `remaining` retries
left, a rate-limit error retries (after a sleep, irrelevant here) while
retries remain; any other error, or exhaustion, is rethrown. -/
def callLoop (gen : String → Nat → Except GenError String) (prompt : String) :
    Nat → Nat → Except GenError (Option String)
  | attempt, 0 =>
    match gen prompt attempt with
    | .ok text => .ok (some text)
    | .error e => .error e
  | attempt, r + 1 =>
    match gen prompt attempt with
    | .ok text => .ok (some text)
    | .error e => if e.is429 then callLoop gen prompt (attempt + 1) r else .error e

/-- `GeminiService.callWithRetry` (maxRetries = 2 at every call site): returns
`.ok none` for the `return null` paths and `.error` for a thrown error. -/
def callWithRetry (st : GeminiState) (gen : String → Nat → Except GenError String)
    (prompt : String) (maxRetries : Nat) : Except GenError (Option String) :=
  if !st.hasModel && !st.hasGenAI then .ok none
  else callLoop gen prompt 0 maxRetries

/-- Context passed to `evaluateAnswer`. -/
structure InterviewContext where
  visaType : String
  destinationCountry : String
  previousAnswers : List (String × String)
  language : Option String
deriving DecidableEq, Repr

/-- `GeminiService.evaluateAnswer`: fall back when unavailable, when the call
throws (the `catch`), or when it yields no text; otherwise parse. `buildPrompt`
stands for `buildEvaluationPrompt` and `parse` for `parseEvaluationResponse`;
both are opaque because every claim concerns the paths around them. -/
def evaluateAnswer (st : GeminiState) (gen : String → Nat → Except GenError String)
    (buildPrompt : String → String → InterviewContext → String)
    (parse : String → String → AnswerEvaluation)
    (question answer : String) (context : InterviewContext) : AnswerEvaluation :=
  if !st.isAvailable then getFallbackEvaluation answer
  else
    match callWithRetry st gen (buildPrompt question answer context) 2 with
    | .error _ => getFallbackEvaluation answer
    | .ok none => getFallbackEvaluation answer
    | .ok (some text) => parse text answer

/-! ### The session orchestrator (`InterviewService`)

`activeSessions` is an association list keyed by session id; `uuidv4()` and
timestamps are supplied by the caller as oracle arguments. -/

/-- In-memory per-session state. -/
structure ActiveSession where
  session : InterviewSession
  questions : List InterviewQuestion
  currentIndex : Nat
  previousAnswers : List (String × String)

/-- The `activeSessions` map. -/
abbrev Store := List (String × ActiveSession)

/-- `activeSessions.get(id)`. -/
def lookupStore : Store → String → Option ActiveSession
  | [], _ => none
  | (k, v) :: rest, id => if id = k then some v else lookupStore rest id

/-- `activeSessions.delete(id)`. -/
def delStore (st : Store) (id : String) : Store :=
  st.filter fun p => decide (p.1 ≠ id)

/-- `activeSessions.set(id, v)` (overwrite semantics of a JS `Map`). -/
def setStore (st : Store) (id : String) (v : ActiveSession) : Store :=
  (id, v) :: delStore st id

/-- `previousAnswers.set(k, v)`. -/
def setAssoc (m : List (String × String)) (k v : String) : List (String × String) :=
  (k, v) :: m.filter fun p => decide (p.1 ≠ k)

/-- The fresh `ActiveSession` built by `startInterview`. -/
def startActive (sessionId : String) (visaType : InterviewVisaType)
    (destinationCountry : String) (questions : List InterviewQuestion) (now : Nat) :
    ActiveSession :=
  { session :=
      { id := sessionId
        visaType := visaType
        destinationCountry := destinationCountry
        startTime := now
        endTime := none
        totalQuestions := questions.length
        questionsAsked := []
        overallScore := 0
        passed := false
        feedback := ""
        improvements := [] }
    questions := questions
    currentIndex := 0
    previousAnswers := [] }

/-- `InterviewService.startInterview`. `sessionId` is the `uuidv4()` oracle and
`questions` the (shuffled) result of `getQuestionsForVisaType(visaType, 10)`.
Returns the new store plus `{sessionId, firstQuestion, totalQuestions}`. -/
def startInterview (st : Store) (sessionId : String) (visaType : InterviewVisaType)
    (destinationCountry : String) (questions : List InterviewQuestion) (now : Nat) :
    Store × (String × Option InterviewQuestion × Nat) :=
  (setStore st sessionId (startActive sessionId visaType destinationCountry questions now),
    (sessionId, questions.head?, questions.length))

/-- Successful result of `submitAnswer`. -/
structure SubmitResult where
  scores : ScoreBreakdown
  feedback : String
  flagged : Bool
  flagReason : Option String
  nextQuestion : Option InterviewQuestion
  questionNumber : Nat
  isComplete : Bool

/-- Outcome of `submitAnswer`: the thrown not-found error, the JS `TypeError`
raised when `questions[currentIndex]` is `undefined` and `scoreAnswer`
dereferences it, or success with the updated store. -/
inductive SubmitOutcome
  | notFound
  | typeError
  | ok (r : SubmitResult) (st : Store)

/-- Whether the outcome is the not-found error. -/
def SubmitOutcome.isNotFound : SubmitOutcome → Bool
  | .notFound => true
  | _ => false

/-- `InterviewService.submitAnswer`. -/
def submitAnswer (st : Store) (sessionId answer : String) (responseTimeMs : Nat) :
    SubmitOutcome :=
  match lookupStore st sessionId with
  | none => .notFound
  | some active =>
    match active.questions.get? active.currentIndex with
    | none => .typeError
    | some currentQuestion =>
      let r := scoreAnswer currentQuestion answer active.session.visaType
        active.previousAnswers
      let previousAnswers := setAssoc active.previousAnswers currentQuestion.id (toLowerStr answer)
      let qa : QuestionAnswer :=
        { questionId := currentQuestion.id
          questionText := currentQuestion.text
          userAnswer := answer
          responseTimeMs := responseTimeMs
          scores := r.scores
          flagged := r.flagged
          flagReason := r.flagReason
          feedback := r.feedback }
      let session := { active.session with
        questionsAsked := active.session.questionsAsked ++ [qa] }
      let currentIndex := active.currentIndex + 1
      let isComplete := decide (active.questions.length ≤ currentIndex)
      let nextQuestion := if isComplete then none else active.questions.get? currentIndex
      let active := { active with
        session := session, currentIndex := currentIndex, previousAnswers := previousAnswers }
      .ok
        { scores := r.scores
          feedback := r.feedback
          flagged := r.flagged
          flagReason := r.flagReason
          nextQuestion := nextQuestion
          questionNumber := active.currentIndex
          isComplete := isComplete }
        (setStore st sessionId active)

/-- `InterviewService.generateFeedback`: overall feedback text plus the
improvement list, from the per-dimension rounded averages. -/
def generateFeedback (session : InterviewSession) : String × List String :=
  let qs := session.questionsAsked
  let count := max qs.length 1
  let avgCompleteness := roundDiv (qs.map fun q => q.scores.completeness).sum count
  let avgClarity := roundDiv (qs.map fun q => q.scores.clarity).sum count
  let avgRelevance := roundDiv (qs.map fun q => q.scores.relevance).sum count
  let avgConfidence := roundDiv (qs.map fun q => q.scores.confidence).sum count
  let avgConsistency := roundDiv (qs.map fun q => q.scores.consistency).sum count
  let feedback :=
    if session.passed then
      "Excellent performance! You scored " ++ toString session.overallScore ++
        "% and demonstrated good preparation for your immigration interview."
    else if 60 ≤ session.overallScore then
      "Good effort! You scored " ++ toString session.overallScore ++
        "%. With some improvements, you'll be well prepared for your interview."
    else
      "You scored " ++ toString session.overallScore ++
        "%. More practice is recommended before your actual interview."
  let improvements :=
    (if avgCompleteness < 70 then ["Provide more complete answers with specific details."] else []) ++
    (if avgClarity < 70 then ["Be clearer and more direct in your responses."] else []) ++
    (if avgRelevance < 70 then ["Make sure your answers directly address the questions asked."] else []) ++
    (if avgConfidence < 70 then
      ["Speak with more confidence. Avoid filler words like \"maybe\" or \"I think\"."] else []) ++
    (if avgConsistency < 70 then ["Ensure your answers are consistent throughout the interview."] else []) ++
    (let flaggedCount := (qs.filter fun q => q.flagged).length
     if 2 < flaggedCount then
       [toString flaggedCount ++ " of your answers raised potential concerns. Review these carefully."]
     else [])
  (feedback, improvements)

/-- `InterviewService.endInterview`: `none` models the thrown not-found error;
on success the finished session is returned and the id is removed from the
store (the database save is best-effort and outside the model). -/
def endInterview (st : Store) (sessionId : String) (now : Nat) :
    Option (InterviewSession × Store) :=
  match lookupStore st sessionId with
  | none => none
  | some active =>
    let session := { active.session with endTime := some now }
    let meanTotal :=
      roundDiv (session.questionsAsked.map fun q => q.scores.total).sum
        session.questionsAsked.length
    let session :=
      if 0 < session.questionsAsked.length then
        { session with overallScore := meanTotal }
      else session
    let session := { session with passed := decide (80 ≤ session.overallScore) }
    let fi := generateFeedback session
    let session := { session with feedback := fi.1, improvements := fi.2 }
    some (session, delStore st sessionId)

/-- The store after a successful `endInterview` (unchanged when it throws). -/
def endStoreAfter (st : Store) (sessionId : String) (now : Nat) : Store :=
  match endInterview st sessionId now with
  | some (_, st') => st'
  | none => st

/-! ### Caller operation traces over the service -/

/-- One caller operation against the service, carrying its oracle inputs
(fresh uuid for `start`, timestamps). -/
inductive Op
  | op_start (id : String) (visaType : InterviewVisaType) (dest : String)
      (questions : List InterviewQuestion) (now : Nat)
  | op_submit (id answer : String) (responseTimeMs : Nat)
  | op_end (id : String) (now : Nat)

/-- Whether an operation is `start` with the given session id. -/
def Op.isStartOn : Op → String → Bool
  | .op_start i _ _ _ _, id => decide (i = id)
  | _, _ => false

/-- Whether an operation is `end` with the given session id. -/
def Op.isEndOn : Op → String → Bool
  | .op_end i _, id => decide (i = id)
  | _, _ => false

/-- Effect of one operation on the session store (failed calls leave it
unchanged, as the source throws before mutating). -/
def stepStore (st : Store) : Op → Store
  | .op_start id vt dest qs now => (startInterview st id vt dest qs now).1
  | .op_submit id ans rt =>
    match submitAnswer st id ans rt with
    | .ok _ st' => st'
    | _ => st
  | .op_end id now =>
    match endInterview st id now with
    | some (_, st') => st'
    | none => st

/-- Run a trace of operations from a given store. -/
def runFrom (st : Store) (ops : List Op) : Store :=
  ops.foldl stepStore st

/-- Run a trace from the empty store of a freshly constructed service. -/
def runOps (ops : List Op) : Store :=
  runFrom [] ops

/-- Stores reachable from the freshly constructed service by caller
operations. -/
inductive Reachable : Store → Prop
  | empty : Reachable []
  | step {st : Store} (op : Op) : Reachable st → Reachable (stepStore st op)

/-! ### Basic lemmas about the helpers -/

theorem includes_iff {s sub : String} : includes s sub = true ↔ sub.data <:+: s.data := by
  simp [includes]

theorem length_le_of_includes {s sub : String} (h : includes s sub = true) :
    sub.length ≤ s.length :=
  (includes_iff.mp h).length_le

theorem includes_false_of_short {s sub : String} (h : s.length < sub.length) :
    includes s sub = false := by
  cases hi : includes s sub with
  | false => rfl
  | true => exact absurd (length_le_of_includes hi) (Nat.not_le.mpr h)

/-- Any string containing `"not yet"` contains `"no"`. -/
theorem includes_no_of_includes_not_yet {s : String} (h : includes s "not yet" = true) :
    includes s "no" = true :=
  includes_iff.mpr (List.IsInfix.trans (by decide) (includes_iff.mp h))

theorem clamp_le_100 (x : Int) : clamp x ≤ 100 := by
  unfold clamp
  omega

theorem clamp_eq_zero_of_nonpos {x : Int} (h : x ≤ 0) : clamp x = 0 := by
  unfold clamp
  rw [min_eq_right (le_trans h (by norm_num)), max_eq_left h]
  rfl

theorem roundDiv_eq_floor (s n : Nat) (h : 0 < n) :
    roundDiv s n = ⌊(s : ℚ) / n + 1 / 2⌋₊ := by
  have hn : (n : ℚ) ≠ 0 := Nat.cast_ne_zero.mpr h.ne'
  have key : (s : ℚ) / n + 1 / 2 = ((2 * s + n : ℕ) : ℚ) / ((2 * n : ℕ) : ℚ) := by
    push_cast
    field_simp
    ring
  rw [roundDiv, key, Nat.floor_div_nat, Nat.floor_natCast]

/-! ### Claim C1 -/

/-- Claim C1: for every question, visa type, previous-answers map, and answer
text, every dimension of the breakdown returned by `scoreAnswer` lies in
`[0, 100]` (the lower bound is carried by the `Nat` codomain of the clamp),
and `total` is the half-up-rounded arithmetic mean of exactly the five
dimension values. -/
theorem scoreAnswer_breakdown_bounds_and_total (q : InterviewQuestion) (answer : String)
    (vt : InterviewVisaType) (prev : List (String × String)) :
    ((scoreAnswer q answer vt prev).scores.completeness ≤ 100 ∧
     (scoreAnswer q answer vt prev).scores.clarity ≤ 100 ∧
     (scoreAnswer q answer vt prev).scores.relevance ≤ 100 ∧
     (scoreAnswer q answer vt prev).scores.confidence ≤ 100 ∧
     (scoreAnswer q answer vt prev).scores.consistency ≤ 100) ∧
    (scoreAnswer q answer vt prev).scores.total =
      ⌊(((scoreAnswer q answer vt prev).scores.completeness +
          (scoreAnswer q answer vt prev).scores.clarity +
          (scoreAnswer q answer vt prev).scores.relevance +
          (scoreAnswer q answer vt prev).scores.confidence +
          (scoreAnswer q answer vt prev).scores.consistency : ℕ) : ℚ) / 5 + 1 / 2⌋₊ := by
  refine ⟨⟨clamp_le_100 _, clamp_le_100 _, clamp_le_100 _, clamp_le_100 _, clamp_le_100 _⟩, ?_⟩
  exact roundDiv_eq_floor _ 5 (by norm_num)

/-! ### Per-step projection lemmas for the scorer pipeline -/

theorem step2Green_flagged (q : InterviewQuestion) (a : String) (st : ScoringState) :
    (step2Green q a st).flagged = st.flagged := by
  simp only [step2Green]
  repeat' split
  all_goals rfl

theorem step3Red_flagged_mono (q : InterviewQuestion) (a : String) {st : ScoringState}
    (h : st.flagged = true) : (step3Red q a st).flagged = true := by
  simp only [step3Red]
  repeat' split
  all_goals simp [h]

theorem step4Confidence_flagged (a : String) (st : ScoringState) :
    (step4Confidence a st).flagged = st.flagged := by
  simp only [step4Confidence]
  repeat' split
  all_goals rfl

theorem step5Duration_flagged_mono (q : InterviewQuestion) (a : String)
    (vt : InterviewVisaType) {st : ScoringState} (h : st.flagged = true) :
    (step5Duration q a vt st).flagged = true := by
  simp only [step5Duration]
  repeat' split
  all_goals simp [h]

theorem step6YesNo_flagged (q : InterviewQuestion) (a : String) (st : ScoringState) :
    (step6YesNo q a st).flagged = st.flagged := by
  simp only [step6YesNo]
  repeat' split
  all_goals rfl

theorem step7ReturnTicket_flagged_mono (q : InterviewQuestion) (a : String)
    (vt : InterviewVisaType) {st : ScoringState} (h : st.flagged = true) :
    (step7ReturnTicket q a vt st).flagged = true := by
  simp only [step7ReturnTicket]
  repeat' split
  all_goals simp [h]

theorem step8Consistency_flagged (q : InterviewQuestion) (a : String)
    (prev : List (String × String)) (st : ScoringState) :
    (step8Consistency q a prev st).flagged = st.flagged := by
  simp only [step8Consistency]
  repeat' split
  all_goals rfl

theorem step9Rules_flagged (q : InterviewQuestion) (a : String) (st : ScoringState) :
    (step9Rules q a st).flagged = st.flagged := rfl

theorem finalizeScores_flagged (st : ScoringState) :
    (finalizeScores st).flagged = st.flagged := rfl

theorem step6YesNo_flagReason (q : InterviewQuestion) (a : String) (st : ScoringState) :
    (step6YesNo q a st).flagReason = st.flagReason := by
  simp only [step6YesNo]
  repeat' split
  all_goals rfl

theorem step7ReturnTicket_eq_of_id_ne (q : InterviewQuestion) (a : String)
    (vt : InterviewVisaType) (st : ScoringState) (h : q.id ≠ "u9") :
    step7ReturnTicket q a vt st = st := by
  unfold step7ReturnTicket
  rw [if_neg]
  intro hc
  exact h hc.1

theorem step8Consistency_flagReason (q : InterviewQuestion) (a : String)
    (prev : List (String × String)) (st : ScoringState) :
    (step8Consistency q a prev st).flagReason = st.flagReason := by
  simp only [step8Consistency]
  repeat' split
  all_goals rfl

theorem step9Rules_flagReason (q : InterviewQuestion) (a : String) (st : ScoringState) :
    (step9Rules q a st).flagReason = st.flagReason := rfl

theorem finalizeScores_flagReason (st : ScoringState) :
    (finalizeScores st).flagReason = st.flagReason := rfl

theorem step3Red_completeness (q : InterviewQuestion) (a : String) (st : ScoringState) :
    (step3Red q a st).scores.completeness = st.scores.completeness := by
  simp only [step3Red]
  repeat' split
  all_goals rfl

theorem step3Red_clarity (q : InterviewQuestion) (a : String) (st : ScoringState) :
    (step3Red q a st).scores.clarity = st.scores.clarity := by
  simp only [step3Red]
  repeat' split
  all_goals rfl

theorem step4Confidence_completeness (a : String) (st : ScoringState) :
    (step4Confidence a st).scores.completeness = st.scores.completeness := by
  simp only [step4Confidence]
  repeat' split
  all_goals rfl

theorem step4Confidence_clarity (a : String) (st : ScoringState) :
    (step4Confidence a st).scores.clarity = st.scores.clarity := by
  simp only [step4Confidence]
  repeat' split
  all_goals rfl

theorem step5Duration_completeness (q : InterviewQuestion) (a : String)
    (vt : InterviewVisaType) (st : ScoringState) :
    (step5Duration q a vt st).scores.completeness = st.scores.completeness := by
  simp only [step5Duration]
  repeat' split
  all_goals rfl

theorem step5Duration_clarity (q : InterviewQuestion) (a : String)
    (vt : InterviewVisaType) (st : ScoringState) :
    (step5Duration q a vt st).scores.clarity = st.scores.clarity := by
  simp only [step5Duration]
  repeat' split
  all_goals rfl

theorem step6YesNo_completeness (q : InterviewQuestion) (a : String) (st : ScoringState) :
    (step6YesNo q a st).scores.completeness = st.scores.completeness := by
  simp only [step6YesNo]
  repeat' split
  all_goals rfl

theorem step7ReturnTicket_completeness (q : InterviewQuestion) (a : String)
    (vt : InterviewVisaType) (st : ScoringState) :
    (step7ReturnTicket q a vt st).scores.completeness = st.scores.completeness := by
  simp only [step7ReturnTicket]
  repeat' split
  all_goals rfl

theorem step7ReturnTicket_clarity (q : InterviewQuestion) (a : String)
    (vt : InterviewVisaType) (st : ScoringState) :
    (step7ReturnTicket q a vt st).scores.clarity = st.scores.clarity := by
  simp only [step7ReturnTicket]
  repeat' split
  all_goals rfl

theorem step8Consistency_completeness (q : InterviewQuestion) (a : String)
    (prev : List (String × String)) (st : ScoringState) :
    (step8Consistency q a prev st).scores.completeness = st.scores.completeness := by
  simp only [step8Consistency]
  repeat' split
  all_goals rfl

theorem step8Consistency_clarity (q : InterviewQuestion) (a : String)
    (prev : List (String × String)) (st : ScoringState) :
    (step8Consistency q a prev st).scores.clarity = st.scores.clarity := by
  simp only [step8Consistency]
  repeat' split
  all_goals rfl

theorem step8Consistency_relevance (q : InterviewQuestion) (a : String)
    (prev : List (String × String)) (st : ScoringState) :
    (step8Consistency q a prev st).scores.relevance = st.scores.relevance := by
  simp only [step8Consistency]
  repeat' split
  all_goals rfl

theorem finalizeScores_completeness (st : ScoringState) :
    (finalizeScores st).scores.completeness = clamp st.scores.completeness := rfl

theorem finalizeScores_clarity (st : ScoringState) :
    (finalizeScores st).scores.clarity = clamp st.scores.clarity := rfl

theorem finalizeScores_relevance (st : ScoringState) :
    (finalizeScores st).scores.relevance = clamp st.scores.relevance := rfl

/-! ### Claim C2 -/

theorem RawScores.get_add (s : RawScores) (c : ScoreCategory) (d : Int) (c' : ScoreCategory) :
    (s.add c d).get c' = if c = c' then s.get c' + d else s.get c' := by
  cases c <;> cases c' <;> simp [RawScores.add, RawScores.get]

/-- A dimension that starts nonpositive stays nonpositive through the rule
fold of step 9 when every applicable rule in that category has a nonpositive
delta. -/
theorem foldRules_get_nonpos (a : String) (c : ScoreCategory) :
    ∀ (rules : List ScoringRule) (sc : RawScores),
      (∀ r ∈ rules, r.category = c → applyRule r a = true → r.score ≤ 0) →
      sc.get c ≤ 0 →
      (rules.foldl (fun sc r => if applyRule r a then sc.add r.category r.score else sc)
        sc).get c ≤ 0 := by
  intro rules
  induction rules with
  | nil =>
    intro sc _ hsc
    simpa using hsc
  | cons r rest ih =>
    intro sc hrules hsc
    rw [List.foldl_cons]
    apply ih
    · intro r' hr' hcat happ
      exact hrules r' (List.mem_cons_of_mem _ hr') hcat happ
    · cases happ : applyRule r a with
      | false => simpa [happ] using hsc
      | true =>
        rw [if_pos rfl, RawScores.get_add]
        by_cases hcat : r.category = c
        · rw [if_pos hcat]
          have hscore := hrules r (List.mem_cons_self _ _) hcat happ
          omega
        · rw [if_neg hcat]
          exact hsc

/-- Every green flag in the bank has at least 2 characters (lower-cased), so
none can occur inside an answer shorter than 2 characters. -/
theorem bank_greenFlags_min_length :
    INTERVIEW_QUESTIONS.all
      (fun q => (q.greenFlags.getD []).all fun f => decide (2 ≤ (toLowerStr f).length)) = true := by
  decide

theorem step2Green_eq_self (q : InterviewQuestion) (a : String) (st : ScoringState)
    (h : ∀ f ∈ q.greenFlags.getD [], includes a (toLowerStr f) = false) :
    step2Green q a st = st := by
  unfold step2Green
  cases hg : q.greenFlags with
  | none => rfl
  | some flags =>
    rw [hg] at h
    have hfil : flags.filter (fun f => includes a (toLowerStr f)) = [] := by
      rw [List.filter_eq_nil_iff]
      intro f hf
      simp [h f (by simpa using hf)]
    simp [hfil]

theorem step1Short_short (a : String) (st : ScoringState) (h : a.length < 2) :
    step1Short a st =
      { st with
        scores := { st.scores with completeness := 0, clarity := 0 }
        flagged := true
        flagReason := some "Answer too short or empty"
        feedbackParts := st.feedbackParts ++ ["Please provide a complete answer."] } := by
  unfold step1Short
  rw [if_pos h]

theorem step6YesNo_clarity_nonpos (q : InterviewQuestion) (a : String) (st : ScoringState)
    (hyes : includes a "yes" = false) (hno : includes a "no" = false)
    (h : st.scores.clarity ≤ 0) : (step6YesNo q a st).scores.clarity ≤ 0 := by
  unfold step6YesNo
  split
  · rw [if_neg (by simp [hyes, hno])]
    simp only
    omega
  · exact h

theorem step2Green_clarity (q : InterviewQuestion) (a : String) (st : ScoringState) :
    (step2Green q a st).scores.clarity = st.scores.clarity := by
  simp only [step2Green]
  repeat' split
  all_goals rfl

/-- Claim C2 as amended: for every question in the bank, every visa type, and
every answer whose trimmed, lower-cased form has length < 2, `scoreAnswer`
returns `flagged = true` — unconditionally; the guard's zeroing of
completeness survives to the final breakdown whenever no positive-delta
scoring rule of the question in the completeness category applies to the
short answer, and likewise for clarity with the clarity category (the
counterexample shows `pattern` rules can re-raise a zeroed dimension).
Quantified over the bank, whose green flags all have at least 2 characters. -/
theorem scoreAnswer_short_answer_flagged (q : InterviewQuestion)
    (hq : q ∈ INTERVIEW_QUESTIONS) (vt : InterviewVisaType)
    (prev : List (String × String)) (answer : String)
    (hshort : (normalize answer).length < 2) :
    (scoreAnswer q answer vt prev).flagged = true ∧
    ((∀ r ∈ q.scoringRules, r.category = .completeness →
        applyRule r (normalize answer) = true → r.score ≤ 0) →
      (scoreAnswer q answer vt prev).scores.completeness = 0) ∧
    ((∀ r ∈ q.scoringRules, r.category = .clarity →
        applyRule r (normalize answer) = true → r.score ≤ 0) →
      (scoreAnswer q answer vt prev).scores.clarity = 0) := by
  set a := normalize answer with ha
  have hgreen : ∀ f ∈ q.greenFlags.getD [], includes a (toLowerStr f) = false := by
    intro f hf
    have h2 := List.all_eq_true.mp (List.all_eq_true.mp bank_greenFlags_min_length q hq) f hf
    exact includes_false_of_short (lt_of_lt_of_le hshort (of_decide_eq_true h2))
  have hyes : includes a "yes" = false := by
    apply includes_false_of_short
    have : ("yes" : String).length = 3 := rfl
    omega
  have hno : includes a "no" = false := by
    apply includes_false_of_short
    have : ("no" : String).length = 2 := rfl
    omega
  have h1 := step1Short_short a initialScoringState hshort
  have hflag : (scorePipeline q a vt prev).flagged = true := by
    unfold scorePipeline
    rw [step9Rules_flagged, step8Consistency_flagged]
    apply step7ReturnTicket_flagged_mono
    rw [step6YesNo_flagged]
    apply step5Duration_flagged_mono
    rw [step4Confidence_flagged]
    apply step3Red_flagged_mono
    rw [step2Green_flagged, h1]
  refine ⟨hflag, ?_, ?_⟩
  · intro hcomp
    have hpre_comp :
        (step8Consistency q a prev
          (step7ReturnTicket q a vt
            (step6YesNo q a
              (step5Duration q a vt
                (step4Confidence a
                  (step3Red q a
                    (step2Green q a
                      (step1Short a initialScoringState)))))))).scores.completeness ≤ 0 := by
      rw [step8Consistency_completeness, step7ReturnTicket_completeness, step6YesNo_completeness,
        step5Duration_completeness, step4Confidence_completeness, step3Red_completeness,
        step2Green_eq_self q a _ hgreen, h1]
    exact clamp_eq_zero_of_nonpos
      (foldRules_get_nonpos a .completeness q.scoringRules _ hcomp hpre_comp)
  · intro hclar
    have hpre_clar :
        (step8Consistency q a prev
          (step7ReturnTicket q a vt
            (step6YesNo q a
              (step5Duration q a vt
                (step4Confidence a
                  (step3Red q a
                    (step2Green q a
                      (step1Short a initialScoringState)))))))).scores.clarity ≤ 0 := by
      rw [step8Consistency_clarity, step7ReturnTicket_clarity]
      apply step6YesNo_clarity_nonpos _ _ _ hyes hno
      rw [step5Duration_clarity, step4Confidence_clarity, step3Red_clarity,
        step2Green_clarity, h1]
    exact clamp_eq_zero_of_nonpos
      (foldRules_get_nonpos a .clarity q.scoringRules _ hclar hpre_clar)

/-- Counterexample to C2 as stated, in both zeroed categories: on question u1
the letters-only `pattern` rule applies to the one-letter answer `"a"` and
re-raises clarity to 20, and on question t3 the digit `pattern` rule applies
to the answer `"5"` and re-raises completeness to 20, even though the
trivial-answer guard fired in both cases (`flagged = true`). -/
theorem scoreAnswer_short_answer_clarity_counterexample :
    (normalize "a").length < 2 ∧
    (scoreAnswer u1Q "a" .tourist []).flagged = true ∧
    (scoreAnswer u1Q "a" .tourist []).scores.completeness = 0 ∧
    (scoreAnswer u1Q "a" .tourist []).scores.clarity = 20 ∧
    (normalize "5").length < 2 ∧
    (scoreAnswer t3Q "5" .tourist []).flagged = true ∧
    (scoreAnswer t3Q "5" .tourist []).scores.completeness = 20 := by
  decide

/-- Witness for the amended C2: question u2 (whose only rule affects
relevance) on the one-letter answer `"x"` yields all three conclusions, and
question t3 (whose digit rule re-raises only completeness) on the answer
`"5"` still yields `flagged = true` and `clarity = 0`. -/
theorem scoreAnswer_short_answer_flagged_witness :
    ((scoreAnswer u2Q "x" .tourist []).flagged = true ∧
      (scoreAnswer u2Q "x" .tourist []).scores.completeness = 0 ∧
      (scoreAnswer u2Q "x" .tourist []).scores.clarity = 0) ∧
    ((scoreAnswer t3Q "5" .tourist []).flagged = true ∧
      (scoreAnswer t3Q "5" .tourist []).scores.clarity = 0) :=
  have hu2 := scoreAnswer_short_answer_flagged u2Q
    (List.mem_cons_of_mem _ (List.mem_cons_self _ _)) .tourist [] "x" (by decide)
  have ht3 := scoreAnswer_short_answer_flagged t3Q
    (by repeat first | exact List.mem_cons_self _ _ | apply List.mem_cons_of_mem)
    .tourist [] "5" (by decide)
  ⟨⟨hu2.1, hu2.2.1 (by decide), hu2.2.2 (by decide)⟩, ⟨ht3.1, ht3.2.2 (by decide)⟩⟩

/-! ### Claim C3 -/

theorem step9Rules_u9_relevance (a : String) (st : ScoringState) :
    (step9Rules u9Q a st).scores.relevance =
      st.scores.relevance + (if includes a "yes" then 30 else 0) +
        (if includes a "no" then -20 else 0) := by
  have hy : toLowerStr "yes" = "yes" := rfl
  have hn : toLowerStr "no" = "no" := rfl
  unfold step9Rules u9Q
  dsimp only
  rw [List.foldl_cons, List.foldl_cons, List.foldl_nil]
  unfold applyRule
  dsimp only
  rw [hy, hn]
  by_cases h1 : includes a "yes" = true <;> by_cases h2 : includes a "no" = true <;>
    simp [h1, h2, RawScores.add, RawScores.get]

theorem step7ReturnTicket_u9_no (a : String) (vt : InterviewVisaType)
    (hvt : vt = .tourist ∨ vt = .visit) (hno : includes a "no" = true) (st : ScoringState) :
    (step7ReturnTicket u9Q a vt st).scores.relevance = 10 ∧
    (step7ReturnTicket u9Q a vt st).flagged = true := by
  unfold step7ReturnTicket
  rw [if_pos ⟨rfl, hvt⟩, if_pos (by simp [hno])]
  exact ⟨rfl, rfl⟩

theorem step7ReturnTicket_u9_yes (a : String) (vt : InterviewVisaType)
    (hvt : vt = .tourist ∨ vt = .visit) (hno : includes a "no" = false)
    (hnotyet : includes a "not yet" = false) (hdont : includes a "don't have" = false)
    (hyb : (includes a "yes" || includes a "booked") = true) (st : ScoringState) :
    (step7ReturnTicket u9Q a vt st).scores.relevance = 100 := by
  unfold step7ReturnTicket
  rw [if_pos ⟨rfl, hvt⟩, if_neg (by simp [hno, hnotyet, hdont]), if_pos hyb]

/-- Claim C3 as amended: for the return-ticket question u9 under tourist or
visit visas, every answer containing `"no"` or `"not yet"` is flagged —
unconditionally; if it moreover does not contain `"yes"`, its final relevance
is ≤ 10; and an answer containing `"yes"` or `"booked"` — and containing none
of `"no"`, `"not yet"`, `"don't have"` — gets final relevance 100. The added
exclusions on the relevance values are forced by the counterexample: u9's own
`contains 'yes'`/`contains 'no'` scoring rules re-adjust relevance after the
hard rule assigns it. -/
theorem scoreAnswer_u9_return_ticket (vt : InterviewVisaType)
    (hvt : vt = .tourist ∨ vt = .visit) (prev : List (String × String)) (answer : String) :
    ((includes (normalize answer) "no" = true ∨ includes (normalize answer) "not yet" = true) →
      (scoreAnswer u9Q answer vt prev).flagged = true) ∧
    ((includes (normalize answer) "no" = true ∨ includes (normalize answer) "not yet" = true) →
      includes (normalize answer) "yes" = false →
      (scoreAnswer u9Q answer vt prev).scores.relevance ≤ 10) ∧
    ((includes (normalize answer) "yes" = true ∨ includes (normalize answer) "booked" = true) →
      includes (normalize answer) "no" = false →
      includes (normalize answer) "not yet" = false →
      includes (normalize answer) "don't have" = false →
      (scoreAnswer u9Q answer vt prev).scores.relevance = 100) := by
  unfold scoreAnswer
  set a := normalize answer with ha
  have key : ∀ hno0 : includes a "no" = true ∨ includes a "not yet" = true,
      includes a "no" = true := by
    intro hno0
    cases hno0 with
    | inl h => exact h
    | inr h => exact includes_no_of_includes_not_yet h
  refine ⟨?_, ?_, ?_⟩
  · intro hno0
    have hno := key hno0
    have h7 := step7ReturnTicket_u9_no a vt hvt hno
      (step6YesNo u9Q a
        (step5Duration u9Q a vt
          (step4Confidence a
            (step3Red u9Q a
              (step2Green u9Q a (step1Short a initialScoringState))))))
    rw [finalizeScores_flagged]
    unfold scorePipeline
    rw [step9Rules_flagged, step8Consistency_flagged]
    exact h7.2
  · intro hno0 hyes
    have hno := key hno0
    have h7 := step7ReturnTicket_u9_no a vt hvt hno
      (step6YesNo u9Q a
        (step5Duration u9Q a vt
          (step4Confidence a
            (step3Red u9Q a
              (step2Green u9Q a (step1Short a initialScoringState))))))
    rw [finalizeScores_relevance]
    unfold scorePipeline
    rw [step9Rules_u9_relevance, step8Consistency_relevance, h7.1, hyes, hno]
    decide
  · intro hyb0 hno hnotyet hdont
    have h7 := step7ReturnTicket_u9_yes a vt hvt hno hnotyet hdont
      (by cases hyb0 with
        | inl h => simp [h]
        | inr h => simp [h])
      (step6YesNo u9Q a
        (step5Duration u9Q a vt
          (step4Confidence a
            (step3Red u9Q a
              (step2Green u9Q a (step1Short a initialScoringState))))))
    rw [finalizeScores_relevance]
    unfold scorePipeline
    rw [step9Rules_u9_relevance, step8Consistency_relevance, h7, hno]
    by_cases hy2 : includes a "yes" = true
    · rw [hy2]
      decide
    · rw [Bool.eq_false_iff.mpr hy2]
      decide

/-- Counterexample to C3 as stated: the answer `"yes and no"` contains both
`"no"` and `"yes"`; the hard rule takes the no-branch (relevance := 10,
flagged), but u9's scoring rules then add +30 (contains yes) and −20
(contains no), leaving final relevance 20 — neither ≤ 10 nor = 100. -/
theorem scoreAnswer_u9_mixed_answer_counterexample :
    includes (normalize "yes and no") "no" = true ∧
    includes (normalize "yes and no") "yes" = true ∧
    (scoreAnswer u9Q "yes and no" .tourist []).flagged = true ∧
    (scoreAnswer u9Q "yes and no" .tourist []).scores.relevance = 20 ∧
    ¬((scoreAnswer u9Q "yes and no" .tourist []).scores.relevance ≤ 10) ∧
    (scoreAnswer u9Q "yes and no" .tourist []).scores.relevance ≠ 100 := by
  decide

/-- Witness for the amended C3: the plain answers `"no"` and `"booked"`. -/
theorem scoreAnswer_u9_return_ticket_witness :
    (scoreAnswer u9Q "no" .tourist []).flagged = true ∧
    (scoreAnswer u9Q "no" .tourist []).scores.relevance ≤ 10 ∧
    (scoreAnswer u9Q "booked" .visit []).scores.relevance = 100 :=
  ⟨(scoreAnswer_u9_return_ticket .tourist (Or.inl rfl) [] "no").1 (Or.inl (by decide)),
    (scoreAnswer_u9_return_ticket .tourist (Or.inl rfl) [] "no").2.1
      (Or.inl (by decide)) (by decide),
    (scoreAnswer_u9_return_ticket .visit (Or.inr rfl) [] "booked").2.2
      (Or.inr (by decide)) (by decide) (by decide) (by decide)⟩

/-! ### Claim C4 -/

theorem checkDuration_tourist_long (a : String) (d : Nat)
    (hd : firstNumber a = some d)
    (hfor : includes a "forever" = false) (hperm : includes a "permanent" = false)
    (hset : includes a "settle" = false)
    (hdays : 90 < durationDays a d) :
    checkDuration a .tourist =
      { adjustment := -30
        feedback := some
          "Tourist visa stays are typically short (few weeks). Long stays may raise concerns."
        flagged := true
        flagReason := some "Duration too long for tourist visa" } := by
  unfold checkDuration
  rw [hd]
  dsimp only
  rw [if_neg (by simp [hfor, hperm, hset]), if_pos ⟨rfl, hdays⟩]

theorem step5Duration_tourist_long (q : InterviewQuestion) (a : String) (st : ScoringState)
    (hdur : q.expectedAnswerType = .duration) (d : Nat)
    (hd : firstNumber a = some d)
    (hfor : includes a "forever" = false) (hperm : includes a "permanent" = false)
    (hset : includes a "settle" = false)
    (hdays : 90 < durationDays a d) :
    (step5Duration q a .tourist st).flagged = true ∧
    (step5Duration q a .tourist st).flagReason = some "Duration too long for tourist visa" := by
  unfold step5Duration
  rw [if_pos hdur, checkDuration_tourist_long a d hd hfor hperm hset hdays]
  exact ⟨rfl, rfl⟩

/-- Every duration-typed question of the bank has an id other than u9, so the
return-ticket hard rule cannot overwrite a duration flag reason. -/
theorem bank_duration_not_u9 :
    INTERVIEW_QUESTIONS.all
      (fun q => !(decide (q.expectedAnswerType = .duration)) || !(decide (q.id = "u9"))) =
      true := by
  decide

/-- Claim C4 as amended: a tourist-visa duration answer containing a number
whose extracted duration converts to more than 90 days is flagged with reason
`Duration too long for tourist visa`, provided the answer does not contain
`forever`, `permanent`, or `settle` — the permanence check runs first and
wins with its own reason (see the counterexample). -/
theorem scoreAnswer_tourist_long_duration (q : InterviewQuestion)
    (hq : q ∈ INTERVIEW_QUESTIONS) (hdur : q.expectedAnswerType = .duration)
    (prev : List (String × String)) (answer : String) (d : Nat)
    (hd : firstNumber (normalize answer) = some d)
    (hfor : includes (normalize answer) "forever" = false)
    (hperm : includes (normalize answer) "permanent" = false)
    (hset : includes (normalize answer) "settle" = false)
    (hdays : 90 < durationDays (normalize answer) d) :
    (scoreAnswer q answer .tourist prev).flagged = true ∧
    (scoreAnswer q answer .tourist prev).flagReason =
      some "Duration too long for tourist visa" := by
  have hid : q.id ≠ "u9" := by
    have hb := List.all_eq_true.mp bank_duration_not_u9 q hq
    intro h
    rw [hdur, h] at hb
    simp at hb
  unfold scoreAnswer
  set a := normalize answer with ha
  have h5 := step5Duration_tourist_long q a
    (step4Confidence a (step3Red q a (step2Green q a (step1Short a initialScoringState))))
    hdur d hd hfor hperm hset hdays
  constructor
  · rw [finalizeScores_flagged]
    unfold scorePipeline
    rw [step9Rules_flagged, step8Consistency_flagged,
      step7ReturnTicket_eq_of_id_ne _ _ _ _ hid, step6YesNo_flagged]
    exact h5.1
  · rw [finalizeScores_flagReason]
    unfold scorePipeline
    rw [step9Rules_flagReason, step8Consistency_flagReason,
      step7ReturnTicket_eq_of_id_ne _ _ _ _ hid, step6YesNo_flagReason]
    exact h5.2

/-- Counterexample to C4 as stated: `"2 years permanent"` contains the number
2 and converts to 730 days > 90, yet the flag reason is the permanence one,
not the excessive-duration one. -/
theorem scoreAnswer_duration_permanent_counterexample :
    firstNumber (normalize "2 years permanent") = some 2 ∧
    90 < durationDays (normalize "2 years permanent") 2 ∧
    (scoreAnswer u5Q "2 years permanent" .tourist []).flagged = true ∧
    (scoreAnswer u5Q "2 years permanent" .tourist []).flagReason =
      some "Indicated permanent stay intention" ∧
    (scoreAnswer u5Q "2 years permanent" .tourist []).flagReason ≠
      some "Duration too long for tourist visa" := by
  decide

/-- Witness for the amended C4: question u5 with the answer `"4 months"`
(120 days) under a tourist visa. -/
theorem scoreAnswer_tourist_long_duration_witness :
    (scoreAnswer u5Q "4 months" .tourist []).flagged = true ∧
    (scoreAnswer u5Q "4 months" .tourist []).flagReason =
      some "Duration too long for tourist visa" :=
  scoreAnswer_tourist_long_duration u5Q
    (List.mem_cons_of_mem _ (List.mem_cons_of_mem _ (List.mem_cons_of_mem _
      (List.mem_cons_of_mem _ (List.mem_cons_self _ _))))) rfl [] "4 months" 4
    (by decide) (by decide) (by decide) (by decide) (by decide)

/-! ### Claim C7 -/

/-- Claim C7: when every call to the AI collaborator throws a rate-limit
error, `evaluateAnswer` never throws (it is a total function into
`AnswerEvaluation` whose catch path is taken) and returns exactly the
length-based fallback evaluation: score 70/50/30 by trimmed length bands,
all five dimensions equal to the score, `isValid` iff trimmed length > 5,
and feedback carrying the explicit `[No AI]` unavailability marker. -/
theorem evaluateAnswer_rate_limited_falls_back
    (st : GeminiState) (gen : String → Nat → Except GenError String)
    (buildPrompt : String → String → InterviewContext → String)
    (parse : String → String → AnswerEvaluation)
    (question answer : String) (context : InterviewContext)
    (hgen : ∀ p n, ∃ e : GenError, gen p n = .error e ∧ e.is429 = true) :
    evaluateAnswer st gen buildPrompt parse question answer context =
        getFallbackEvaluation answer ∧
      (getFallbackEvaluation answer).score =
        (if 50 < (trimStr answer).length then 70
         else if 20 < (trimStr answer).length then 50 else 30) ∧
      (getFallbackEvaluation answer).completeness = (getFallbackEvaluation answer).score ∧
      (getFallbackEvaluation answer).clarity = (getFallbackEvaluation answer).score ∧
      (getFallbackEvaluation answer).relevance = (getFallbackEvaluation answer).score ∧
      (getFallbackEvaluation answer).confidence = (getFallbackEvaluation answer).score ∧
      (getFallbackEvaluation answer).consistency = (getFallbackEvaluation answer).score ∧
      ((getFallbackEvaluation answer).isValid = true ↔ 5 < (trimStr answer).length) ∧
      "[No AI]".data <+: (getFallbackEvaluation answer).feedback.data := by
  obtain ⟨e0, h0, h0'⟩ := hgen (buildPrompt question answer context) 0
  obtain ⟨e1, h1, h1'⟩ := hgen (buildPrompt question answer context) 1
  obtain ⟨e2, h2, h2'⟩ := hgen (buildPrompt question answer context) 2
  have e20 : callLoop gen (buildPrompt question answer context) 2 0 = .error e2 := by
    rw [callLoop, h2]
  have e11 : callLoop gen (buildPrompt question answer context) 1 1 = .error e2 := by
    rw [callLoop, h1]
    dsimp only
    rw [if_pos h1']
    exact e20
  have hloop : callLoop gen (buildPrompt question answer context) 0 2 = .error e2 := by
    rw [callLoop, h0]
    dsimp only
    rw [if_pos h0']
    exact e11
  refine ⟨?_, rfl, rfl, rfl, rfl, rfl, rfl, ?_, ?_⟩
  · unfold evaluateAnswer
    split
    · rfl
    · by_cases hm : (!st.hasModel && !st.hasGenAI) = true
      · rw [callWithRetry, if_pos hm]
      · rw [callWithRetry, if_neg hm, hloop]
  · simp [getFallbackEvaluation]
  · have hf : (getFallbackEvaluation answer).feedback =
        (if 20 < (trimStr answer).length then "[No AI] Answer recorded. AI evaluation unavailable."
         else "[No AI] Please provide more detail.") := rfl
    rw [hf]
    split
    · decide
    · decide

/-- Witness for C7 at a concrete state, oracle, and answer. -/
theorem evaluateAnswer_rate_limited_falls_back_witness :
    evaluateAnswer ⟨true, true, "gemini-2.0-flash-lite"⟩ (fun _ _ => .error ⟨true⟩)
        (fun q a _ => q ++ a) (fun _ a => getFallbackEvaluation a)
        "Do you have a return ticket?" "Yes, my return ticket is booked and confirmed already."
        ⟨"tourist", "SA", [], none⟩ =
      getFallbackEvaluation "Yes, my return ticket is booked and confirmed already." ∧
    (getFallbackEvaluation "Yes, my return ticket is booked and confirmed already.").score =
      (if 50 < (trimStr "Yes, my return ticket is booked and confirmed already.").length
       then 70
       else if 20 < (trimStr "Yes, my return ticket is booked and confirmed already.").length
       then 50 else 30) ∧
    (getFallbackEvaluation "Yes, my return ticket is booked and confirmed already.").completeness =
      (getFallbackEvaluation "Yes, my return ticket is booked and confirmed already.").score ∧
    (getFallbackEvaluation "Yes, my return ticket is booked and confirmed already.").clarity =
      (getFallbackEvaluation "Yes, my return ticket is booked and confirmed already.").score ∧
    (getFallbackEvaluation "Yes, my return ticket is booked and confirmed already.").relevance =
      (getFallbackEvaluation "Yes, my return ticket is booked and confirmed already.").score ∧
    (getFallbackEvaluation "Yes, my return ticket is booked and confirmed already.").confidence =
      (getFallbackEvaluation "Yes, my return ticket is booked and confirmed already.").score ∧
    (getFallbackEvaluation "Yes, my return ticket is booked and confirmed already.").consistency =
      (getFallbackEvaluation "Yes, my return ticket is booked and confirmed already.").score ∧
    ((getFallbackEvaluation "Yes, my return ticket is booked and confirmed already.").isValid = true ↔
      5 < (trimStr "Yes, my return ticket is booked and confirmed already.").length) ∧
    "[No AI]".data <+:
      (getFallbackEvaluation "Yes, my return ticket is booked and confirmed already.").feedback.data :=
  evaluateAnswer_rate_limited_falls_back ⟨true, true, "gemini-2.0-flash-lite"⟩
    (fun _ _ => .error ⟨true⟩) (fun q a _ => q ++ a) (fun _ a => getFallbackEvaluation a)
    "Do you have a return ticket?" "Yes, my return ticket is booked and confirmed already."
    ⟨"tourist", "SA", [], none⟩ (fun _ _ => ⟨⟨true⟩, rfl, rfl⟩)

/-! ### Claim C8 -/

/-- Claim C8: for every outcome of the randomized shuffle,
`getQuestionsForVisaType('work', 10)` returns at most 6 universal and at most
4 visa-specific questions (so at most 10 in total), and every returned
question's visa-type set is `'all'` or contains `'work'`. -/
theorem getQuestionsForVisaType_work_quota (shuffled : List InterviewQuestion)
    (h : ShuffleOutcome .work shuffled) :
    (getQuestionsForVisaType .work 10 shuffled).countP
        (fun q => decide (q.category = .universal)) ≤ 6 ∧
    (getQuestionsForVisaType .work 10 shuffled).countP
        (fun q => decide (q.category = .visa_specific)) ≤ 4 ∧
    (getQuestionsForVisaType .work 10 shuffled).length ≤ 10 ∧
    ∀ q ∈ getQuestionsForVisaType .work 10 shuffled,
      q.visaTypes = .all ∨ q.visaTypes.memb .work = true := by
  have hcu : (combinedFor .work).countP (fun q => decide (q.category = .universal)) = 6 := by
    decide
  have hcs : (combinedFor .work).countP (fun q => decide (q.category = .visa_specific)) = 4 := by
    decide
  have hall : (combinedFor .work).all
      (fun q => q.visaTypes.isAll || q.visaTypes.memb .work) = true := by decide
  refine ⟨?_, ?_, ?_, ?_⟩
  · calc (getQuestionsForVisaType .work 10 shuffled).countP
          (fun q => decide (q.category = .universal))
        ≤ shuffled.countP (fun q => decide (q.category = .universal)) :=
          (List.take_sublist 10 shuffled).countP_le _
      _ = 6 := by rw [h.countP_eq, hcu]
  · calc (getQuestionsForVisaType .work 10 shuffled).countP
          (fun q => decide (q.category = .visa_specific))
        ≤ shuffled.countP (fun q => decide (q.category = .visa_specific)) :=
          (List.take_sublist 10 shuffled).countP_le _
      _ = 4 := by rw [h.countP_eq, hcs]
  · have : (shuffled.take 10).length ≤ 10 := by
      rw [List.length_take]
      exact min_le_left _ _
    exact this
  · intro q hq
    have hq' : q ∈ combinedFor .work :=
      h.mem_iff.mp (List.take_subset 10 shuffled hq)
    have hb := List.all_eq_true.mp hall q hq'
    cases hvt : q.visaTypes with
    | all => exact Or.inl rfl
    | only l =>
      right
      rw [hvt] at hb
      simpa [VisaTypesSpec.isAll] using hb

/-- Witness for C8 at the identity shuffle. -/
theorem getQuestionsForVisaType_work_quota_witness :
    (getQuestionsForVisaType .work 10 (combinedFor .work)).countP
        (fun q => decide (q.category = .universal)) ≤ 6 ∧
    (getQuestionsForVisaType .work 10 (combinedFor .work)).countP
        (fun q => decide (q.category = .visa_specific)) ≤ 4 ∧
    (getQuestionsForVisaType .work 10 (combinedFor .work)).length ≤ 10 ∧
    ∀ q ∈ getQuestionsForVisaType .work 10 (combinedFor .work),
      q.visaTypes = .all ∨ q.visaTypes.memb .work = true :=
  getQuestionsForVisaType_work_quota (combinedFor .work) (List.Perm.refl _)

/-! ### Store lemmas for the session orchestrator -/

theorem lookup_delStore (st : Store) (k id : String) :
    lookupStore (delStore st k) id = if id = k then none else lookupStore st id := by
  induction st with
  | nil => simp [delStore, lookupStore]
  | cons p rest ih =>
    obtain ⟨k', v⟩ := p
    by_cases hk : k' = k <;> by_cases hid : id = k' <;>
      simp_all [delStore, List.filter_cons, lookupStore]

theorem lookup_setStore (st : Store) (k : String) (v : ActiveSession) (id : String) :
    lookupStore (setStore st k v) id = if id = k then some v else lookupStore st id := by
  unfold setStore
  by_cases hid : id = k <;> simp [lookupStore, hid, lookup_delStore]

theorem submitAnswer_ok_shape {st : Store} {i ans : String} {rt : Nat} {r : SubmitResult}
    {st' : Store} (h : submitAnswer st i ans rt = .ok r st') :
    ∃ act₀ act₁, lookupStore st i = some act₀ ∧ st' = setStore st i act₁ ∧
      act₁.session.overallScore = act₀.session.overallScore := by
  unfold submitAnswer at h
  cases hlook : lookupStore st i with
  | none =>
    simp only [hlook] at h
    exact SubmitOutcome.noConfusion h
  | some act₀ =>
    simp only [hlook] at h
    cases hget : act₀.questions.get? act₀.currentIndex with
    | none =>
      simp only [hget] at h
      exact SubmitOutcome.noConfusion h
    | some q =>
      simp only [hget] at h
      injection h with h1 h2
      exact ⟨act₀, _, rfl, h2.symm, rfl⟩

theorem endInterview_some_shape {st : Store} {i : String} {now : Nat}
    {s : InterviewSession} {st' : Store} (h : endInterview st i now = some (s, st')) :
    st' = delStore st i := by
  unfold endInterview at h
  cases hlook : lookupStore st i with
  | none =>
    simp only [hlook] at h
    exact Option.noConfusion h
  | some act =>
    simp only [hlook] at h
    injection h with h1
    exact (congrArg Prod.snd h1).symm

theorem endStoreAfter_of_isSome {st : Store} {i : String} {now : Nat}
    (h : (endInterview st i now).isSome = true) :
    endStoreAfter st i now = delStore st i := by
  unfold endStoreAfter
  cases he : endInterview st i now with
  | none => rw [he] at h; simp at h
  | some p =>
    obtain ⟨s, st'⟩ := p
    exact endInterview_some_shape he

/-- Invariant: every active session in a reachable store still carries the
initial `overallScore = 0` — only `endInterview` computes a score, and it
removes the session. -/
theorem reachable_overallScore_zero {st : Store} (h : Reachable st) :
    ∀ id act, lookupStore st id = some act → act.session.overallScore = 0 := by
  induction h with
  | empty =>
    intro id act hl
    simp [lookupStore] at hl
  | @step st0 op hr ih =>
    intro id act hl
    cases op with
    | op_start i vt dest qs now =>
      simp only [stepStore, startInterview] at hl
      rw [lookup_setStore] at hl
      split at hl
      · injection hl with h1
        rw [← h1]
        rfl
      · exact ih id act hl
    | op_submit i ans rt =>
      cases hsub : submitAnswer st0 i ans rt with
      | notFound =>
        simp only [stepStore, hsub] at hl
        exact ih id act hl
      | typeError =>
        simp only [stepStore, hsub] at hl
        exact ih id act hl
      | ok r st' =>
        simp only [stepStore, hsub] at hl
        obtain ⟨act₀, act₁, hl0, hst', hscore⟩ := submitAnswer_ok_shape hsub
        rw [hst', lookup_setStore] at hl
        split at hl
        · injection hl with h1
          rw [← h1, hscore]
          exact ih i act₀ hl0
        · exact ih id act hl
    | op_end i now =>
      cases he : endInterview st0 i now with
      | none =>
        simp only [stepStore, he] at hl
        exact ih id act hl
      | some p =>
        obtain ⟨s, st'⟩ := p
        simp only [stepStore, he] at hl
        rw [endInterview_some_shape he, lookup_delStore] at hl
        split at hl
        · exact Option.noConfusion hl
        · exact ih id act hl

/-! ### Claim C5 -/

/-- Spec-side reading of claim C5's overall score: the half-up-rounded mean
of the recorded per-question totals, 0 when no answers were recorded. -/
def specOverallScore (records : List QuestionAnswer) : Nat :=
  if records.length = 0 then 0
  else ⌊(((records.map fun qa => qa.scores.total).sum : ℕ) : ℚ) / (records.length : ℚ) + 1 / 2⌋₊

/-- Claim C5: for every reachable store and active session in it, ending the
session sets the overall score to the rounded mean of the recorded totals
(0 when none were recorded) and sets `passed` exactly when that score is
at least 80. -/
theorem endInterview_overall_score_and_passed (st : Store) (hst : Reachable st)
    (id : String) (act : ActiveSession) (now : Nat)
    (hl : lookupStore st id = some act) :
    (endInterview st id now).map (fun p => (p.1.overallScore, p.1.passed)) =
      some (specOverallScore act.session.questionsAsked,
        decide (80 ≤ specOverallScore act.session.questionsAsked)) := by
  have hzero := reachable_overallScore_zero hst id act hl
  unfold endInterview
  rw [hl]
  dsimp only
  by_cases hn : 0 < act.session.questionsAsked.length
  · rw [if_pos hn]
    dsimp only
    unfold specOverallScore
    rw [if_neg (by omega)]
    rw [roundDiv_eq_floor _ _ hn]
    rfl
  · rw [if_neg hn]
    dsimp only
    unfold specOverallScore
    rw [if_pos (by omega), hzero]
    rfl

/-- Witness for C5 on a freshly started session with no answers. -/
theorem endInterview_overall_score_and_passed_witness :
    (endInterview (runOps [Op.op_start "s1" .tourist "SA" (combinedFor .tourist) 0])
        "s1" 99).map (fun p => (p.1.overallScore, p.1.passed)) =
      some (specOverallScore
          (startActive "s1" .tourist "SA" (combinedFor .tourist) 0).session.questionsAsked,
        decide (80 ≤ specOverallScore
          (startActive "s1" .tourist "SA" (combinedFor .tourist) 0).session.questionsAsked)) :=
  endInterview_overall_score_and_passed _
    (Reachable.step (Op.op_start "s1" .tourist "SA" (combinedFor .tourist) 0) Reachable.empty)
    "s1" _ 99 rfl

/-! ### Claim C6 -/

/-- A session id with no `start` in the trace never appears in the store. -/
theorem runFrom_lookup_none (id : String) :
    ∀ (ops : List Op) (st : Store), lookupStore st id = none →
      ops.all (fun o => !o.isStartOn id) = true →
      lookupStore (runFrom st ops) id = none := by
  intro ops
  induction ops with
  | nil =>
    intro st h _
    simpa [runFrom] using h
  | cons op rest ih =>
    intro st h hall
    rw [List.all_cons, Bool.and_eq_true] at hall
    obtain ⟨h1, h2⟩ := hall
    have hstep : lookupStore (stepStore st op) id = none := by
      cases op with
      | op_start i vt dest qs now =>
        have hne : ¬(id = i) := by
          simp only [Op.isStartOn, Bool.not_eq_eq_eq_not, Bool.not_true, decide_eq_false_iff_not] at h1
          exact fun hh => h1 (hh.symm)
        simp only [stepStore, startInterview]
        rw [lookup_setStore, if_neg hne]
        exact h
      | op_submit i ans rt =>
        cases hsub : submitAnswer st i ans rt with
        | notFound => simpa only [stepStore, hsub] using h
        | typeError => simpa only [stepStore, hsub] using h
        | ok r st' =>
          simp only [stepStore, hsub]
          obtain ⟨act₀, act₁, hl0, hst', _⟩ := submitAnswer_ok_shape hsub
          have hne : ¬(id = i) := by
            intro hh
            rw [← hh, h] at hl0
            exact Option.noConfusion hl0
          rw [hst', lookup_setStore, if_neg hne]
          exact h
      | op_end i now =>
        cases he : endInterview st i now with
        | none => simpa only [stepStore, he] using h
        | some p =>
          obtain ⟨s, st'⟩ := p
          simp only [stepStore, he]
          rw [endInterview_some_shape he, lookup_delStore]
          split
          · rfl
          · exact h
    exact ih (stepStore st op) hstep h2

/-- Claim C6: `submitAnswer` fails with the not-found error both for ids never
returned by `start` (first conjunct, over whole traces from the fresh
service) and for ids whose session was just ended — `end` removes the
session from the store (second conjunct). -/
theorem submitAnswer_unknown_or_ended_not_found :
    (∀ (ops : List Op) (id answer : String) (rt : Nat),
        ops.all (fun o => !o.isStartOn id) = true →
        submitAnswer (runOps ops) id answer rt = .notFound) ∧
    (∀ (st : Store) (id : String) (now : Nat),
        (endInterview st id now).isSome = true →
        lookupStore (endStoreAfter st id now) id = none ∧
        ∀ (answer : String) (rt : Nat),
          submitAnswer (endStoreAfter st id now) id answer rt = .notFound) := by
  have hnf : ∀ (st : Store) (id ans : String) (rt : Nat), lookupStore st id = none →
      submitAnswer st id ans rt = .notFound := by
    intro st id ans rt h
    unfold submitAnswer
    rw [h]
  constructor
  · intro ops id ans rt hall
    exact hnf _ _ _ _ (runFrom_lookup_none id ops [] rfl hall)
  · intro st id now hsome
    have hnone : lookupStore (endStoreAfter st id now) id = none := by
      rw [endStoreAfter_of_isSome hsome, lookup_delStore, if_pos rfl]
    exact ⟨hnone, fun ans rt => hnf _ _ _ _ hnone⟩

/-- Witness for C6: a trace that starts only session `"a"`, probed at `"b"`,
and a submit against `"a"` right after ending it. -/
theorem submitAnswer_unknown_or_ended_not_found_witness :
    submitAnswer (runOps [Op.op_start "a" .tourist "SA" (combinedFor .tourist) 0]) "b" "x" 0 =
      .notFound ∧
    lookupStore
      (endStoreAfter (runOps [Op.op_start "a" .tourist "SA" (combinedFor .tourist) 0]) "a" 5)
      "a" = none ∧
    submitAnswer
      (endStoreAfter (runOps [Op.op_start "a" .tourist "SA" (combinedFor .tourist) 0]) "a" 5)
      "a" "x" 0 = .notFound :=
  ⟨submitAnswer_unknown_or_ended_not_found.1
      [Op.op_start "a" .tourist "SA" (combinedFor .tourist) 0] "b" "x" 0 (by decide),
    (submitAnswer_unknown_or_ended_not_found.2
      (runOps [Op.op_start "a" .tourist "SA" (combinedFor .tourist) 0]) "a" 5 (by decide)).1,
    (submitAnswer_unknown_or_ended_not_found.2
      (runOps [Op.op_start "a" .tourist "SA" (combinedFor .tourist) 0]) "a" 5 (by decide)).2
      "x" 0⟩

/-! ### Claim C9 -/

/-- Claim C9 as amended: there is no inactivity sweep — a session stays in the
in-memory store through any sequence of operations that does not `end` it
(first conjunct), and the only operation that ever removes a present session
id is `end` on exactly that id (second conjunct). -/
theorem sessions_persist_until_end :
    (∀ (st : Store) (ops : List Op) (id : String),
        (lookupStore st id).isSome = true →
        ops.all (fun o => !o.isEndOn id) = true →
        (lookupStore (runFrom st ops) id).isSome = true) ∧
    (∀ (st : Store) (op : Op) (id : String),
        (lookupStore st id).isSome = true →
        lookupStore (stepStore st op) id = none →
        ∃ now, op = Op.op_end id now) := by
  constructor
  · intro st ops
    induction ops generalizing st with
    | nil =>
      intro id h _
      simpa [runFrom] using h
    | cons op rest ih =>
      intro id h hall
      rw [List.all_cons, Bool.and_eq_true] at hall
      obtain ⟨h1, h2⟩ := hall
      have hstep : (lookupStore (stepStore st op) id).isSome = true := by
        cases op with
        | op_start i vt dest qs now =>
          simp only [stepStore, startInterview]
          rw [lookup_setStore]
          split
          · rfl
          · exact h
        | op_submit i ans rt =>
          cases hsub : submitAnswer st i ans rt with
          | notFound => simpa only [stepStore, hsub] using h
          | typeError => simpa only [stepStore, hsub] using h
          | ok r st' =>
            simp only [stepStore, hsub]
            obtain ⟨act₀, act₁, hl0, hst', _⟩ := submitAnswer_ok_shape hsub
            rw [hst', lookup_setStore]
            split
            · rfl
            · exact h
        | op_end i now =>
          have hne : ¬(id = i) := by
            simp only [Op.isEndOn, Bool.not_eq_eq_eq_not, Bool.not_true,
              decide_eq_false_iff_not] at h1
            exact fun hh => h1 (hh.symm)
          cases he : endInterview st i now with
          | none => simpa only [stepStore, he] using h
          | some p =>
            obtain ⟨s, st'⟩ := p
            simp only [stepStore, he]
            rw [endInterview_some_shape he, lookup_delStore, if_neg hne]
            exact h
      exact ih (stepStore st op) id hstep h2
  · intro st op id h hnone
    cases op with
    | op_start i vt dest qs now =>
      simp only [stepStore, startInterview] at hnone
      rw [lookup_setStore] at hnone
      split at hnone
      · exact Option.noConfusion hnone
      · rw [hnone] at h
        exact Bool.noConfusion h
    | op_submit i ans rt =>
      cases hsub : submitAnswer st i ans rt with
      | notFound =>
        simp only [stepStore, hsub] at hnone
        rw [hnone] at h
        exact Bool.noConfusion h
      | typeError =>
        simp only [stepStore, hsub] at hnone
        rw [hnone] at h
        exact Bool.noConfusion h
      | ok r st' =>
        simp only [stepStore, hsub] at hnone
        obtain ⟨act₀, act₁, hl0, hst', _⟩ := submitAnswer_ok_shape hsub
        rw [hst', lookup_setStore] at hnone
        split at hnone
        · exact Option.noConfusion hnone
        · rw [hnone] at h
          exact Bool.noConfusion h
    | op_end i now =>
      cases he : endInterview st i now with
      | none =>
        simp only [stepStore, he] at hnone
        rw [hnone] at h
        exact Bool.noConfusion h
      | some p =>
        obtain ⟨s, st'⟩ := p
        simp only [stepStore, he] at hnone
        rw [endInterview_some_shape he, lookup_delStore] at hnone
        split at hnone
        · rename_i hid
          exact ⟨now, by rw [hid]⟩
        · rw [hnone] at h
          exact Bool.noConfusion h

/-- Counterexample to C9 as stated: session `"s1"`, last touched at time 0,
is still reachable after other activity two hours later (timestamps are the
`Date` oracle values carried by the operations); a further `submitAnswer`
does not fail with not-found. No sweep of `activeSessions` exists in the
source — the one-hour `setInterval` sweep in `whatsapp.routes.ts` cleans a
different map (WhatsApp document-upload sessions). -/
theorem untouched_session_not_swept_counterexample :
    (lookupStore (runOps
        [Op.op_start "s1" .tourist "SA" (combinedFor .tourist) 0,
         Op.op_start "s2" .tourist "SA" (combinedFor .tourist) 7200000,
         Op.op_end "s2" 7200500]) "s1").isSome = true ∧
    (submitAnswer (runOps
        [Op.op_start "s1" .tourist "SA" (combinedFor .tourist) 0,
         Op.op_start "s2" .tourist "SA" (combinedFor .tourist) 7200000,
         Op.op_end "s2" 7200500]) "s1" "hello my friend" 0).isNotFound = false := by
  constructor
  · decide
  · decide

/-- Witness for the amended C9: `"s1"` survives a trace that starts and ends
an unrelated session. -/
theorem sessions_persist_until_end_witness :
    (lookupStore (runFrom (runOps [Op.op_start "s1" .tourist "SA" (combinedFor .tourist) 0])
        [Op.op_start "s2" .tourist "SA" (combinedFor .tourist) 7200000,
         Op.op_end "s2" 7200500]) "s1").isSome = true :=
  sessions_persist_until_end.1
    (runOps [Op.op_start "s1" .tourist "SA" (combinedFor .tourist) 0])
    [Op.op_start "s2" .tourist "SA" (combinedFor .tourist) 7200000,
     Op.op_end "s2" 7200500] "s1" (by decide) (by decide)

/-! ### Claim C10 -/

/-- The trace driving claim C10: start a tourist session (identity shuffle
outcome of the ten selected questions) and answer all ten questions. -/
def exhaustedTrace : List Op :=
  Op.op_start "s1" .tourist "SA" (combinedFor .tourist) 0 ::
    ((List.range 10).map fun i => Op.op_submit "s1" "ok" i)

/-- Claim C10 (code bug): after the ten questions of a session are all
answered but before `end`, the session is still in the store with
`currentIndex = questions.length`; one more well-typed `submitAnswer` call
reads `questions[currentIndex]`, which is `undefined`, and `scoreAnswer`
dereferences it — a TypeError crash instead of one of the specified
validation/lookup errors, contradicting the spec's no-crash guarantee. -/
theorem submitAnswer_after_exhaustion_crashes :
    (lookupStore (runOps exhaustedTrace) "s1").isSome = true ∧
    submitAnswer (runOps exhaustedTrace) "s1" "ok" 0 = .typeError := by
  exact ⟨by decide, rfl⟩

end FIA
